import Mathlib

/-!
Shallow embedding of the US Census Bureau scraper collection core:
the record mapper (mapCensusTable), the output size guard in main.ts
and its historical batch variant, the identifier resolver
(findFullTableId), the paginated search accumulator
(fetchAllSearchResults) and the batched collection loop of main.ts.
Network fetches are modelled by oracle functions supplied as
parameters; all in-process computation is translated from the source.
-/

/-- JSON values as returned by the upstream API and serialized by
JSON.stringify.  Strings are assumed to contain no characters that
JSON.stringify would escape, so a string serializes to its UTF-8
bytes between two quote characters. -/
inductive Json where
  | null
  | bool (b : Bool)
  | num (n : Int)
  | str (s : String)
  | arr (elems : List Json)
  | obj (fields : List (String × Json))

mutual

/-- Serialized byte length of a JSON value: a model of
Buffer.byteLength(JSON.stringify(v), 'utf8') as used in main.ts. -/
def jsonSize : Json → Nat
  | .null => 4
  | .bool true => 4
  | .bool false => 5
  | .num n => (toString n).utf8ByteSize
  | .str s => s.utf8ByteSize + 2
  | .arr es => 2 + jsonSizeList es
  | .obj fs => 2 + jsonSizeFields fs

/-- Byte length of the comma-separated serialization of array elements. -/
def jsonSizeList : List Json → Nat
  | [] => 0
  | [e] => jsonSize e
  | e :: es => jsonSize e + 1 + jsonSizeList es

/-- Byte length of the comma-separated serialization of object fields:
each field costs its quoted key, a colon and its value. -/
def jsonSizeFields : List (String × Json) → Nat
  | [] => 0
  | [kv] => kv.1.utf8ByteSize + 3 + jsonSize kv.2
  | kv :: fs => kv.1.utf8ByteSize + 3 + jsonSize kv.2 + 1 + jsonSizeFields fs

end

/-- JavaScript truthiness of a JSON value. -/
def jsTruthy : Json → Bool
  | .null => false
  | .bool b => b
  | .num n => n ≠ 0
  | .str s => s ≠ ""
  | .arr _ => true
  | .obj _ => true

/-- Lookup of a key in a JSON object field list (first occurrence wins,
as in a JavaScript object). -/
def lookupField : List (String × Json) → String → Option Json
  | [], _ => none
  | (k, v) :: fs, key => if k = key then some v else lookupField fs key

/-- Property access v.k on a JSON value: a defined value for object
fields that are present, undefined (none) otherwise.  Property access
on primitives yields undefined in JavaScript. -/
def getField : Json → String → Option Json
  | .obj fs, key => lookupField fs key
  | _, _ => none

/-- Optional chaining o?.k on a possibly-undefined JSON value; null and
undefined bases short-circuit to undefined, and property access on a
primitive is undefined. -/
def optChain (o : Option Json) (key : String) : Option Json :=
  match o with
  | none => none
  | some .null => none
  | some v => getField v key

/-- The JavaScript expression a || b on possibly-undefined JSON values:
the left operand if it is defined and truthy, otherwise the right
operand (which may itself be undefined or falsy). -/
def jsOr (a b : Option Json) : Option Json :=
  match a with
  | some v => if jsTruthy v then some v else b
  | none => b

/-- Lift an optional string (a typed optional field) into an optional
JSON value. -/
def strOpt (o : Option String) : Option Json :=
  o.map .str

/-- Truthiness of an optional string field, as tested by if (x) in the
source: defined and non-empty. -/
def strTruthy : Option String → Bool
  | some s => s ≠ ""
  | none => false

/-- The raw search result entity (RawCensusEntity in types.ts). -/
structure RawCensusEntity where
  id : Option String
  title : Option String
  description : Option String
  «type» : Option String
  url : Option String
  metadata : Option Json

/-- The raw merged table (RawCensusTable in types.ts): the shape handed
to mapCensusTable, with the opaque data and metadata bags kept as JSON. -/
structure RawCensusTable where
  id : Option String
  title : Option String
  description : Option String
  «universe» : Option String
  survey : Option String
  year : Option String
  vintage : Option String
  url : Option String
  data : Option Json
  metadata : Option Json

/-- The normalized output record (OutputCensusTable in types.ts).
Fields that the mapper copies out of the untyped metadata bag are kept
as JSON values; variables is always set by the mapper. -/
structure OutputCensusTable where
  tableId : String
  title : Json
  description : Option Json
  survey : Option Json
  «universe» : Option Json
  year : Option Json
  vintage : Option Json
  url : Json
  geography : Option Json
  «variables» : Json
  data : Option Json
  scrapedTimestamp : String

/-- The error record pushed on failures (OutputError in types.ts). -/
structure OutputError where
  error : String
  tableId : Option String
  entityId : Option String
  errorMessage : String
  scrapedTimestamp : String

/-- Error kinds that mapCensusTable can raise: the explicit invalid
input throw on a missing identifier, and the implicit JavaScript
TypeError raised when the untyped metadata bag has a truthy non-array
measures or dimensions field (or a null array element) on which the
mapper then calls .map or .find or reads a property. -/
inductive MapErr where
  | invalidInput
  | typeError
deriving DecidableEq

/-- The message of a mapper failure: the invalid input message is the
literal thrown in mapper.ts, the TypeError message is a stand-in for
the engine-generated one. -/
def mapErrMessage : MapErr → String
  | .invalidInput => "Invalid table data: missing required property (id)"
  | .typeError => "TypeError"

/-- First match of the regular expression (\d{4})\. in a string: scans
left to right for four decimal digits immediately followed by a dot,
as used to pull the year out of a full table identifier. -/
def findYearMatch : List Char → Option String
  | d1 :: d2 :: d3 :: d4 :: dot :: rest =>
      if d1.isDigit && d2.isDigit && d3.isDigit && d4.isDigit && dot = '.' then
        some (String.mk [d1, d2, d3, d4])
      else
        findYearMatch (d2 :: d3 :: d4 :: dot :: rest)
  | _ => none

/-- One entry of simplifiedMeasures: measures.map(m => ({id, label}));
reading a property of a null array element raises a TypeError, and a
property that is absent is dropped from the result (JSON.stringify
drops undefined-valued keys). -/
def mapMeasure (m : Json) : Except MapErr Json :=
  match m with
  | .null => .error .typeError
  | _ =>
    .ok (.obj ((match getField m "id" with
      | some v => [("id", v)]
      | none => []) ++ (match getField m "label" with
      | some v => [("label", v)]
      | none => [])))

/-- measures.map over the whole list, stopping at the first TypeError. -/
def mapMeasures : List Json → Except MapErr (List Json)
  | [] => .ok []
  | m :: ms => do
    let v ← mapMeasure m
    let vs ← mapMeasures ms
    .ok (v :: vs)

/-- One entry of simplifiedDimensions:
d => ({id: d.id, label: d.item?.label || d.label,
dimensionType: d.dimension_type?.id || d.dimension_type?.description}). -/
def mapDimension (d : Json) : Except MapErr Json :=
  match d with
  | .null => .error .typeError
  | _ =>
    let labelV := jsOr (optChain (getField d "item") "label") (getField d "label")
    let dt := getField d "dimension_type"
    let dtV := jsOr (optChain dt "id") (optChain dt "description")
    .ok (.obj ((match getField d "id" with
      | some v => [("id", v)]
      | none => []) ++ (match labelV with
      | some v => [("label", v)]
      | none => []) ++ (match dtV with
      | some v => [("dimensionType", v)]
      | none => [])))

/-- dimensions.map over the whole list. -/
def mapDimensions : List Json → Except MapErr (List Json)
  | [] => .ok []
  | d :: ds => do
    let v ← mapDimension d
    let vs ← mapDimensions ds
    .ok (v :: vs)

/-- The geography find predicate d.dimension_type?.id === 'GEOGRAPHY':
strict equality against a string literal is true only for that exact
string value. -/
def geoPred (d : Json) : Bool :=
  match optChain (getField d "dimension_type") "id" with
  | some (.str s) => s = "GEOGRAPHY"
  | _ => false

/-- dimensions.find(geoPred)?.item?.label: reading the predicate off a
null element raises a TypeError; elements after the first hit are not
inspected. -/
def findGeo : List Json → Except MapErr (Option Json)
  | [] => .ok none
  | d :: ds =>
    match d with
    | .null => .error .typeError
    | _ =>
      if geoPred d then
        .ok (optChain (getField d "item") "label")
      else
        findGeo ds

/-- The metadataContent extraction of mapper.ts:
(table.metadata as any)?.metadataContent || table.metadata. -/
def metadataContentOf (t : RawCensusTable) : Option Json :=
  jsOr (optChain t.metadata "metadataContent") t.metadata

/-- metadataContent?.dataset, the nested dataset descriptor. -/
def datasetDataOf (t : RawCensusTable) : Option Json :=
  optChain (metadataContentOf t) "dataset"

/-- The year extracted from the identifier by mapper.ts: four digits
immediately before a dot, computed only when the input has an
identifier and no (truthy) explicit year. -/
def extractedYearOf (t : RawCensusTable) : Option String :=
  match t.id with
  | none => none
  | some tid =>
    if tid = "" then none
    else if strTruthy t.year then none
    else findYearMatch tid.data

/-- The reference year chosen by mapper.ts:
table.year || datasetData?.year || extractedYear || datasetData?.vintage. -/
def finalYearOf (t : RawCensusTable) : Option Json :=
  jsOr (strOpt t.year)
    (jsOr (optChain (datasetDataOf t) "year")
      (jsOr (strOpt (extractedYearOf t))
        (optChain (datasetDataOf t) "vintage")))

/-- The publication vintage chosen by mapper.ts:
table.vintage || datasetData?.vintage || datasetData?.year || extractedYear. -/
def finalVintageOf (t : RawCensusTable) : Option Json :=
  jsOr (strOpt t.vintage)
    (jsOr (optChain (datasetDataOf t) "vintage")
      (jsOr (optChain (datasetDataOf t) "year")
        (strOpt (extractedYearOf t))))

/-- The title chosen by mapper.ts: table.title || metadataContent?.title
|| 'Unavailable Table', with the upstream 'Untitled Table' placeholder
normalized to 'Unavailable Table'. -/
def finalTitleOf (t : RawCensusTable) : Json :=
  let rawTitle :=
    (jsOr (strOpt t.title)
      (jsOr (optChain (metadataContentOf t) "title")
        (some (.str "Unavailable Table")))).getD (.str "Unavailable Table")
  match rawTitle with
  | .str s => if s = "Untitled Table" then .str "Unavailable Table" else .str s
  | v => v

/-- The record mapper (mapCensusTable in mapper.ts).  Throws the
invalid input error when the merged input lacks a (truthy) identifier;
raises a TypeError when the untyped metadata bag carries a truthy
non-array measures or dimensions value (or null elements) on which the
mapper calls .map or .find.  The capture timestamp is passed in, in
place of new Date().toISOString(). -/
def mapCensusTable (ts : String) (t : RawCensusTable) : Except MapErr OutputCensusTable :=
  match t.id with
  | none => .error .invalidInput
  | some tid =>
    if tid = "" then .error .invalidInput
    else
      let mc := metadataContentOf t
      let measuresV := (jsOr (optChain mc "measures") (some (.arr []))).getD (.arr [])
      let dimensionsV := (jsOr (optChain mc "dimensions") (some (.arr []))).getD (.arr [])
      match measuresV with
      | .arr ms =>
        match dimensionsV with
        | .arr ds => do
          let sms ← mapMeasures ms
          let sds ← mapDimensions ds
          let geo ← (match optChain mc "dimensions" with
            | none => .ok none
            | some .null => .ok none
            | some (.arr gds) => findGeo gds
            | some _ => .error .typeError)
          .ok {
            tableId := tid
            title := finalTitleOf t
            description := jsOr (strOpt t.description) (optChain mc "description")
            survey := jsOr (strOpt t.survey)
              (jsOr (optChain (datasetDataOf t) "name")
                (optChain (optChain mc "dataset") "name"))
            «universe» := jsOr (strOpt t.«universe») (optChain mc "universe")
            year := finalYearOf t
            vintage := finalVintageOf t
            url := (jsOr (strOpt t.url)
              (some (.str ("https://data.census.gov/table?tid=" ++ tid)))).getD
                (.str ("https://data.census.gov/table?tid=" ++ tid))
            geography := geo
            «variables» := .obj [("measures", .arr sms), ("dimensions", .arr sds)]
            data := t.data
            scrapedTimestamp := ts }
        | _ => .error .typeError
      | _ => .error .typeError

/-- The Apify per-item size limit used by main.ts: 9 MB in bytes. -/
def MAX_ITEM_SIZE : Nat := 9 * 1024 * 1024

/-- Model of Number.prototype.toFixed(2) applied to bytes / 1024 / 1024:
the megabyte count rounded to two decimals (half up). -/
def toFixed2 (bytes : Nat) : String :=
  let hundredths := (bytes * 100 + 524288) / 1048576
  let ip := toString (hundredths / 100)
  let fr := hundredths % 100
  let frs := if fr < 10 then "0" ++ toString fr else toString fr
  ip ++ "." ++ frs

/-- A field present in the serialized output only when defined
(JSON.stringify drops undefined-valued keys). -/
def optField (k : String) (v : Option Json) : List (String × Json) :=
  match v with
  | some j => [(k, j)]
  | none => []

/-- The serialized field list of an OutputCensusTable, in the literal
order of mapper.ts; undefined optional fields are dropped. -/
def recordFields (r : OutputCensusTable) : List (String × Json) :=
  [("tableId", .str r.tableId), ("title", r.title)]
    ++ optField "description" r.description
    ++ optField "survey" r.survey
    ++ optField "universe" r.«universe»
    ++ optField "year" r.year
    ++ optField "vintage" r.vintage
    ++ [("url", r.url)]
    ++ optField "geography" r.geography
    ++ [("variables", r.«variables»)]
    ++ optField "data" r.data
    ++ [("scrapedTimestamp", .str r.scrapedTimestamp)]

/-- Serialized size of a record, outputSize in main.ts. -/
def outputSizeOf (r : OutputCensusTable) : Nat :=
  jsonSize (.obj (recordFields r))

/-- delete obj.k on a serialized field list. -/
def dropKey (k : String) (fs : List (String × Json)) : List (String × Json) :=
  fs.filter (fun kv => kv.1 ≠ k)

/-- Whether a serialized field list carries a key. -/
def hasKey (k : String) (fs : List (String × Json)) : Bool :=
  fs.any (fun kv => kv.1 = k)

/-- Step 1 of the size guard in src/main.ts: delete the data field,
then append dataSizeMB and the data omission notice. -/
def mainStep1Fields (r : OutputCensusTable) : List (String × Json) :=
  dropKey "data" (recordFields r)
    ++ [("dataSizeMB", .str (toFixed2 (outputSizeOf r))),
        ("dataOmitted", .str "Data field omitted due to size limit (exceeds 9 MB)")]

/-- Step 2 of the size guard in src/main.ts: additionally delete the
variables field and append the variables omission notice. -/
def mainStep2Fields (r : OutputCensusTable) : List (String × Json) :=
  dropKey "variables" (mainStep1Fields r)
    ++ [("variablesOmitted", .str "Variables field omitted due to size limit")]

/-- Outcome of the size guard: the record pushed unchanged, a degraded
record pushed with fields omitted, or the record dropped as too large
(carrying the original and final sizes for the error message). -/
inductive GuardResult where
  | full (fields : List (String × Json))
  | degraded (fields : List (String × Json))
  | tooLarge (originalSize finalSize : Nat)

/-- The size guard of src/main.ts (both the direct-tableId path, lines
119-188, and the search path, lines 281-352, use this logic): if the
record is over budget, delete data first and re-measure; if still over
budget, additionally delete variables and re-measure; if still over
budget, give up and report sizes. -/
def sizeGuardMain (r : OutputCensusTable) : GuardResult :=
  let outputSize := outputSizeOf r
  if outputSize > MAX_ITEM_SIZE then
    let s1 := jsonSize (.obj (mainStep1Fields r))
    if s1 > MAX_ITEM_SIZE then
      let s2 := jsonSize (.obj (mainStep2Fields r))
      if s2 > MAX_ITEM_SIZE then .tooLarge outputSize s2
      else .degraded (mainStep2Fields r)
    else .degraded (mainStep1Fields r)
  else .full (recordFields r)

/-- The error message built by src/main.ts when a record stays over
budget after both deletions. -/
def mainTooLargeMsg (orig fin : Nat) : String :=
  "Data item too large (original size: " ++ toString orig
    ++ " bytes, after removing data and variables: " ++ toString fin
    ++ " bytes, limit: " ++ toString MAX_ITEM_SIZE ++ " bytes)."

/-- Step 1 of the size guard in the historical batch variant
(part_001 processBatch, lines 160-185): delete the variables field
first and append the variables omission notice. -/
def batchStep1Fields (r : OutputCensusTable) : List (String × Json) :=
  dropKey "variables" (recordFields r)
    ++ [("variablesOmitted", .str "Variables field omitted due to size limit (exceeds 9 MB)")]

/-- Step 2 of the batch-variant size guard: additionally delete the
data field and append dataSizeMB and the data omission notice. -/
def batchStep2Fields (r : OutputCensusTable) : List (String × Json) :=
  dropKey "data" (batchStep1Fields r)
    ++ [("dataSizeMB", .str (toFixed2 (outputSizeOf r))),
        ("dataOmitted", .str "Data field omitted due to size limit")]

/-- The size guard of the historical batch variant in part_001:
variables are dropped before data.  The final cleaning step that
filters undefined values is the identity here, since the field lists
never carry undefined values. -/
def sizeGuardBatch (r : OutputCensusTable) : GuardResult :=
  let outputSize := outputSizeOf r
  if outputSize > MAX_ITEM_SIZE then
    let s1 := jsonSize (.obj (batchStep1Fields r))
    if s1 > MAX_ITEM_SIZE then
      let s2 := jsonSize (.obj (batchStep2Fields r))
      if s2 > MAX_ITEM_SIZE then .tooLarge outputSize s2
      else .degraded (batchStep2Fields r)
    else .degraded (batchStep1Fields r)
  else .full (recordFields r)

/-- JavaScript String.includes: substring occurrence. -/
def jsIncludes (s sub : String) : Bool :=
  (s.splitOn sub).length > 1

/-- The datasetPrefixMap of findFullTableId. -/
def datasetPrefixMap : List (String × List String) :=
  [("acs/acs1", ["ACSDT1Y"]),
   ("acs/acs5", ["ACSDT5Y"]),
   ("acs/acs1/subject", ["ACSSDT1Y"]),
   ("acs/acs5/subject", ["ACSSDT5Y"]),
   ("dec/pl", ["DECENNIALPL"]),
   ("dec/dp", ["DECENNIALDP"]),
   ("dec/sf1", ["DECENNIALSF1"]),
   ("dec/sf2", ["DECENNIALSF2"]),
   ("dec/sf3", ["DECENNIALSF3"]),
   ("dec/sf4", ["DECENNIALSF4"])]

/-- Lookup in the dataset prefix map. -/
def lookupPrefixes : List (String × List String) → String → Option (List String)
  | [], _ => none
  | (k, v) :: rest, key => if k = key then some v else lookupPrefixes rest key

/-- The dataset prefixes findFullTableId will try, in order: the mapped
prefixes for a recognized filter, an inference by substring for an
unrecognized one, and the two common ACS prefixes by default (also for
a falsy filter, since the source tests if (datasetFilter)). -/
def datasetsToTry (datasetFilter : Option String) : List String :=
  match datasetFilter with
  | none => ["ACSDT1Y", "ACSDT5Y"]
  | some df =>
    if df = "" then ["ACSDT1Y", "ACSDT5Y"]
    else
      match lookupPrefixes datasetPrefixMap df with
      | some ps => ps
      | none =>
        if jsIncludes df "acs1" then ["ACSDT1Y"]
        else if jsIncludes df "acs5" then ["ACSDT5Y"]
        else if jsIncludes df "dec" then ["DECENNIALPL", "DECENNIALDP"]
        else ["ACSDT1Y", "ACSDT5Y"]

/-- The fixed most-recent-first year list of findFullTableId. -/
def recentYears : List String := ["2023", "2022", "2021", "2020", "2019"]

/-- The years findFullTableId will try, in order: the (truthy) year
filter first, then the fixed recent years with the filter year
filtered out. -/
def yearsToTry (yearFilter : Option String) : List String :=
  match yearFilter with
  | none => recentYears
  | some yf =>
    if yf = "" then recentYears
    else yf :: recentYears.filter (fun y => y ≠ yf)

/-- A candidate full identifier: dataset prefix, year and bare code
joined as in the source template literal. -/
def mkFullTableId (ds y base : String) : String :=
  ds ++ y ++ "." ++ base

/-- The inner year loop of findFullTableId: probe each candidate and
return the first that resolves.  The oracle stands for the metadata
probe: true iff the response is ok and carries a metadataContent body;
a fetch exception is caught and counts as false. -/
def tryYears (ok : String → Bool) (ds base : String) : List String → Option String
  | [] => none
  | y :: ys =>
    if ok (mkFullTableId ds y base) then some (mkFullTableId ds y base)
    else tryYears ok ds base ys

/-- The outer dataset loop of findFullTableId. -/
def tryDatasets (ok : String → Bool) (base : String) (years : List String) :
    List String → Option String
  | [] => none
  | ds :: rest =>
    match tryYears ok ds base years with
    | some r => some r
    | none => tryDatasets ok base years rest

/-- findFullTableId (part_003, lines 576-652): resolve a bare table
code to a full identifier by probing dataset-prefix and year
combinations, or return null when the space is exhausted. -/
def findFullTableId (ok : String → Bool) (baseTableId : String)
    (datasetFilter yearFilter : Option String) : Option String :=
  tryDatasets ok baseTableId (yearsToTry yearFilter) (datasetsToTry datasetFilter)

/-- The flat list of candidate identifiers findFullTableId probes, in
attempt order: dataset-major, years in yearsToTry order per dataset. -/
def probeOrder (base : String) (datasetFilter yearFilter : Option String) : List String :=
  (datasetsToTry datasetFilter).flatMap
    (fun ds => (yearsToTry yearFilter).map (fun y => mkFullTableId ds y base))

/-- Truthiness of the optional maxItems cap combined with the reached
check: if (maxItems && n >= maxItems). -/
def capHit (cap : Option Nat) (n : Nat) : Bool :=
  match cap with
  | none => false
  | some m => if m = 0 then false else n ≥ m

/-- The inner accumulation loop of fetchAllSearchResults: push page
entities one at a time, stopping once the cap is reached. -/
def appendCapped (cap : Option Nat) : List RawCensusEntity → List RawCensusEntity → List RawCensusEntity
  | acc, [] => acc
  | acc, e :: es =>
    if capHit cap acc.length then acc
    else appendCapped cap (acc ++ [e]) es

/-- The search page size of fetchAllSearchResults. -/
def PAGE_SIZE : Nat := 50

/-- The pagination loop of fetchAllSearchResults (part_002, lines
346-399).  The search oracle yields the entity list of each page; the
fuel bounds the number of pages fetched, standing in for upstream
exhaustion (the source loop runs until a short or empty page or the
cap).  Stops on an empty page, a page shorter than PAGE_SIZE, or a
reached cap. -/
def fetchPages (search : Nat → List RawCensusEntity) (cap : Option Nat) :
    Nat → Nat → List RawCensusEntity → List RawCensusEntity
  | 0, _, acc => acc
  | Nat.succ fuel, page, acc =>
    if capHit cap acc.length then acc
    else
      let ents := search page
      if ents.length = 0 then acc
      else
        let acc2 := appendCapped cap acc ents
        if ents.length < PAGE_SIZE then acc2
        else fetchPages search cap fuel (page + 1) acc2

/-- fetchAllSearchResults: accumulate search pages from page 0. -/
def fetchAllSearchResults (search : Nat → List RawCensusEntity) (cap : Option Nat)
    (fuel : Nat) : List RawCensusEntity :=
  fetchPages search cap fuel 0 []

/-- The network environment of the collection run: the outcome of
fetchTableMetadata per identifier, and the value of
(await fetchTableData(id).catch(() => null))?.data per identifier
(none when the data fetch failed or returned no data field). -/
structure Env where
  meta : String → Except String RawCensusTable
  dataData : String → Option Json

/-- The metadata result rendered as the JSON object fetchTableMetadata
returns (the object literal of part_002, lines 274-284; undefined
fields dropped): the fallback value of the merged metadata field. -/
def rawTableJson (mt : RawCensusTable) : Json :=
  .obj (optField "id" (strOpt mt.id)
    ++ optField "title" (strOpt mt.title)
    ++ optField "description" (strOpt mt.description)
    ++ optField "universe" (strOpt mt.«universe»)
    ++ optField "year" (strOpt mt.year)
    ++ optField "vintage" (strOpt mt.vintage)
    ++ optField "survey" (strOpt mt.survey)
    ++ optField "url" (strOpt mt.url)
    ++ optField "metadata" mt.metadata)

/-- The merged table built at src/main.ts lines 272-277:
{ id: entityTableId, ...metadata, data: data?.data || metadata?.data,
metadata: (metadata?.metadata || metadata) }.  The spread overwrites
the initial id with the metadata result's id; the metadata result
object carries no data key, so the data fallback is undefined. -/
def buildMerged (mt : RawCensusTable) (dataData : Option Json) : RawCensusTable :=
  { mt with
    data := jsOr dataData none
    metadata := jsOr mt.metadata (some (rawTableJson mt)) }

/-- A record in the output stream: a result item (its serialized field
list) or an error item. -/
inductive PushedItem where
  | result (fields : List (String × Json))
  | errorRec (e : OutputError)

/-- The mutable state of one search-path run of main.ts: the seen
identifier set, the statistics counters, the pushed output stream and
the log of metadata and data fetch calls issued. -/
structure RunState where
  seen : List String
  totalFetched : Nat
  totalPushed : Nat
  pushed : List PushedItem
  metaLog : List String
  dataLog : List String

/-- The state at the start of a run. -/
def initState : RunState :=
  { seen := [], totalFetched := 0, totalPushed := 0, pushed := [], metaLog := [], dataLog := [] }

/-- Push one record to the output sink: appends to the stream and
counts it. -/
def pushItem (st : RunState) (it : PushedItem) : RunState :=
  { st with totalPushed := st.totalPushed + 1, pushed := st.pushed ++ [it] }

/-- Processing of one search entity in processBatch (src/main.ts lines
242-399): skip silently on a missing (falsy) id or an already seen id;
otherwise record the id as seen, fetch metadata and data, merge, map,
size-guard and push exactly one record; any failure is caught at this
boundary and pushed as one error record carrying both the table id and
the entity id. -/
def processEntity (env : Env) (ts : String) (st : RunState) (entity : RawCensusEntity) : RunState :=
  match entity.id with
  | none => st
  | some tid =>
    if tid = "" then st
    else if st.seen.contains tid then st
    else
      let st1 : RunState :=
        { st with
          seen := st.seen ++ [tid]
          totalFetched := st.totalFetched + 1
          metaLog := st.metaLog ++ [tid]
          dataLog := st.dataLog ++ [tid] }
      match env.meta tid with
      | .error msg =>
        pushItem st1 (.errorRec
          { error := "Failed to process table", tableId := some tid, entityId := some tid,
            errorMessage := msg, scrapedTimestamp := ts })
      | .ok mt =>
        match mapCensusTable ts (buildMerged mt (env.dataData tid)) with
        | .error me =>
          pushItem st1 (.errorRec
            { error := "Failed to process table", tableId := some tid, entityId := some tid,
              errorMessage := mapErrMessage me, scrapedTimestamp := ts })
        | .ok rec =>
          match sizeGuardMain rec with
          | .full fs => pushItem st1 (.result fs)
          | .degraded fs => pushItem st1 (.result fs)
          | .tooLarge orig fin =>
            pushItem st1 (.errorRec
              { error := "Table too large to process", tableId := some tid, entityId := some tid,
                errorMessage := mainTooLargeMsg orig fin, scrapedTimestamp := ts })

/-- One batch: the entities are processed as concurrently awaited tasks
whose failures are contained per entity; the seen-set updates happen
synchronously in batch order before the first await, and only the
within-batch emission order is unspecified, so the batch is modelled by
the batch-order linearization. -/
def runBatch (env : Env) (ts : String) (st : RunState) (batch : List RawCensusEntity) : RunState :=
  batch.foldl (processEntity env ts) st

/-- The batch size of the search path of main.ts. -/
def BATCH_SIZE : Nat := 20

/-- The batch loop of src/main.ts lines 414-443: between batches the
cap is consulted (if (effectiveMaxItems && totalPushed >= max) break);
a started batch always runs to completion.  The fuel bounds the number
of loop iterations; the caller passes the entity count, which is an
upper bound on them. -/
def runBatches (env : Env) (ts : String) (cap : Option Nat) :
    Nat → List RawCensusEntity → RunState → RunState
  | 0, _, st => st
  | _, [], st => st
  | Nat.succ fuel, es@(_ :: _), st =>
    if capHit cap st.totalPushed then st
    else runBatches env ts cap fuel (es.drop BATCH_SIZE) (runBatch env ts st (es.take BATCH_SIZE))

/-- The whole search path of main.ts: gather entities by paginated
search, then process them in batches of BATCH_SIZE starting from the
empty run state. -/
def runSearchCollection (env : Env) (ts : String) (search : Nat → List RawCensusEntity)
    (cap : Option Nat) (fuel : Nat) : RunState :=
  let entities := fetchAllSearchResults search cap fuel
  runBatches env ts cap entities.length entities initState

/-- Truthiness of a possibly-undefined JSON value. -/
def truthyOpt : Option Json → Bool
  | some v => jsTruthy v
  | none => false

/-- Whether a JSON value is the null literal. -/
def isNullJ : Json → Bool
  | .null => true
  | _ => false

/-- All elements of a JSON array are non-null, so that the mapper's
element property reads cannot raise. -/
def arrAllNonNull : List Json → Bool
  | [] => true
  | j :: js => !isNullJ j && arrAllNonNull js

/-- Well-formedness of the untyped metadata bag for the mapper: the
measures and dimensions values are (after the empty-array fallback)
arrays of non-null elements, and the dimensions value read again by
the geography scan is absent, null or an array.  Under this condition
mapCensusTable cannot raise a TypeError. -/
def metaShapeOk (t : RawCensusTable) : Bool :=
  let mc := metadataContentOf t
  (match (jsOr (optChain mc "measures") (some (.arr []))).getD (.arr []) with
    | .arr ms => arrAllNonNull ms
    | _ => false) &&
  (match (jsOr (optChain mc "dimensions") (some (.arr []))).getD (.arr []) with
    | .arr ds => arrAllNonNull ds
    | _ => false) &&
  (match optChain mc "dimensions" with
    | none => true
    | some .null => true
    | some (.arr _) => true
    | some _ => false)

/-- The identifiers of the result items in a pushed stream, read off
the serialized tableId field, in emission order. -/
def pushedTableIds : List PushedItem → List (Option Json)
  | [] => []
  | .result fs :: rest => lookupField fs "tableId" :: pushedTableIds rest
  | .errorRec _ :: rest => pushedTableIds rest

/-- The error items of a pushed stream. -/
def pushedErrors : List PushedItem → List OutputError
  | [] => []
  | .result _ :: rest => pushedErrors rest
  | .errorRec e :: rest => e :: pushedErrors rest

/-- A large opaque upstream payload: an array of n JSON nulls. -/
def bigJson (n : Nat) : Json :=
  .arr (List.replicate n .null)

/-- A minimal mapped record carrying a variables payload v and a data
payload d, used to exercise the size guard. -/
def mkBigRecord (v d : Json) : OutputCensusTable :=
  { tableId := "T", title := .str "", description := none, survey := none,
    «universe» := none, year := none, vintage := none, url := .str "",
    geography := none, «variables» := v, data := some d,
    scrapedTimestamp := "TS" }

/-- A mapped record whose variables field is far over the size budget
while its data field is tiny. -/
def bigVarsRecord : OutputCensusTable :=
  mkBigRecord (bigJson 1900000) (.str "")

/-- A mapped record whose data field is far over the size budget while
its variables field is tiny. -/
def bigDataRecord : OutputCensusTable :=
  mkBigRecord (.arr []) (bigJson 1900000)

/-- A network environment in which every metadata fetch fails with an
HTTP 400 and no data is available. -/
def env400 : Env :=
  { meta := fun _ => .error "Metadata request failed with status 400: Bad Request",
    dataData := fun _ => none }

/-- A metadata result carrying only an identifier. -/
def mtOf (tid : String) : RawCensusTable :=
  { id := some tid, title := none, description := none, «universe» := none,
    survey := none, year := none, vintage := none, url := none,
    data := none, metadata := none }

/-- An identifier-preserving environment: the metadata fetch echoes the
requested identifier. -/
def envOK : Env :=
  { meta := fun tid => .ok (mtOf tid), dataData := fun _ => none }

/-- An environment whose metadata endpoint reports the same actual
identifier C for every requested identifier, as fetchTableMetadata
does when the response body carries its own tableId. -/
def envC : Env :=
  { meta := fun _ => .ok (mtOf "C"), dataData := fun _ => none }

/-- Search entities used by concrete runs. -/
def entityA : RawCensusEntity :=
  { id := some "A", title := none, description := none, «type» := none, url := none, metadata := none }

def entityB : RawCensusEntity :=
  { id := some "B", title := none, description := none, «type» := none, url := none, metadata := none }

def entityX : RawCensusEntity :=
  { id := some "X", title := none, description := none, «type» := none, url := none, metadata := none }

/-- A search entity with no identifier. -/
def entityNoId : RawCensusEntity :=
  { id := none, title := some "hit", description := none, «type» := none, url := none, metadata := none }

/-- A one-page search oracle returning a single entity. -/
def searchOne : Nat → List RawCensusEntity :=
  fun page => if page = 0 then [entityA] else []

/-- A one-page search oracle returning two entities. -/
def searchAB : Nat → List RawCensusEntity :=
  fun page => if page = 0 then [entityA, entityB] else []

/-- A probe oracle that resolves exactly one candidate identifier. -/
def probeOk0 : String → Bool :=
  fun s => s = "ACSDT1Y2019.B01001"

/-- The error record produced by the concrete failing run. -/
def cexRunErr : OutputError :=
  { error := "Failed to process table", tableId := some "A", entityId := some "A",
    errorMessage := "Metadata request failed with status 400: Bad Request",
    scrapedTimestamp := "TS" }

/-- The scenario input of the spec: a merged table carrying only the
identifier ACSDT1Y2021.B01001. -/
def tScenario : RawCensusTable :=
  { id := some "ACSDT1Y2021.B01001", title := none, description := none,
    «universe» := none, survey := none, year := none, vintage := none,
    url := none, data := none, metadata := none }

/-- A merged table with an identifier containing the extractable year
2021 and a metadata dataset carrying only a vintage 2005. -/
def tC6input : RawCensusTable :=
  { id := some "ACSDT1Y2021.B01001", title := none, description := none,
    «universe» := none, survey := none, year := none, vintage := none,
    url := none, data := none,
    metadata := some (.obj [("dataset", .obj [("vintage", .str "2005")])]) }

/-- A merged table with an identifier but a truthy non-array measures
value in its metadata bag. -/
def tC8bad : RawCensusTable :=
  { id := some "T1", title := none, description := none, «universe» := none,
    survey := none, year := none, vintage := none, url := none, data := none,
    metadata := some (.obj [("measures", .num 1)]) }

/-- A merged table with no identifier at all. -/
def tMissing : RawCensusTable :=
  { id := none, title := none, description := none, «universe» := none,
    survey := none, year := none, vintage := none, url := none, data := none,
    metadata := none }

/-- The output record the mapper produces for the scenario input. -/
def rScenario : OutputCensusTable :=
  { tableId := "ACSDT1Y2021.B01001", title := .str "Unavailable Table",
    description := none, survey := none, «universe» := none,
    year := some (.str "2021"), vintage := some (.str "2021"),
    url := .str "https://data.census.gov/table?tid=ACSDT1Y2021.B01001",
    geography := none,
    «variables» := .obj [("measures", .arr []), ("dimensions", .arr [])],
    data := none, scrapedTimestamp := "TS" }

/-- The inner year loop probes the candidates in list order and returns
the first resolving one. -/
theorem tryYears_eq_find (ok : String → Bool) (ds base : String) :
    ∀ years : List String,
      tryYears ok ds base years = (years.map (fun y => mkFullTableId ds y base)).find? ok := by
  intro years
  induction years with
  | nil => rfl
  | cons y ys ih =>
    simp only [tryYears, List.map_cons, List.find?_cons]
    cases h : ok (mkFullTableId ds y base) <;> simp [h, ih]

/-- The nested loops of findFullTableId probe the flattened
dataset-major candidate list in order and return the first hit. -/
theorem tryDatasets_eq_find (ok : String → Bool) (base : String) (years : List String) :
    ∀ dss : List String,
      tryDatasets ok base years dss =
        (dss.flatMap (fun ds => years.map (fun y => mkFullTableId ds y base))).find? ok := by
  intro dss
  induction dss with
  | nil => rfl
  | cons ds rest ih =>
    simp only [tryDatasets, List.flatMap_cons, List.find?_append, tryYears_eq_find, ih]
    cases (List.map (fun y => mkFullTableId ds y base) years).find? ok <;> simp

/-- C7 (confirmed): with a year filter, findFullTableId probes, for
every dataset prefix tried, the candidate built from the filter year
before any other candidate of that prefix, and the remaining years are
the fixed most-recent-first list with the filter year removed (so the
filter year is not repeated). -/
theorem C7_resolver_year_order (ok : String → Bool) (base : String)
    (df : Option String) (y : String) (hy : y ≠ "") :
    findFullTableId ok base df (some y) = (probeOrder base df (some y)).find? ok ∧
    probeOrder base df (some y) =
      (datasetsToTry df).flatMap
        (fun ds => mkFullTableId ds y base ::
          (recentYears.filter (fun x => x ≠ y)).map (fun x => mkFullTableId ds x base)) ∧
    (recentYears.filter (fun x => x ≠ y)).Sublist recentYears ∧
    y ∉ recentYears.filter (fun x => x ≠ y) := by
  refine ⟨?_, ?_, ?_, ?_⟩
  · simp only [findFullTableId, probeOrder, tryDatasets_eq_find]
  · simp [probeOrder, yearsToTry, hy]
  · exact List.filter_sublist recentYears
  · simp

/-- Concrete instance of C7_resolver_year_order. -/
theorem C7_resolver_year_order_witness :
    findFullTableId probeOk0 "B01001" (some "acs/acs1") (some "2020") =
      (probeOrder "B01001" (some "acs/acs1") (some "2020")).find? probeOk0 ∧
    probeOrder "B01001" (some "acs/acs1") (some "2020") =
      (datasetsToTry (some "acs/acs1")).flatMap
        (fun ds => mkFullTableId ds "2020" "B01001" ::
          (recentYears.filter (fun x => x ≠ "2020")).map (fun x => mkFullTableId ds x "B01001")) ∧
    (recentYears.filter (fun x => x ≠ "2020")).Sublist recentYears ∧
    "2020" ∉ recentYears.filter (fun x => x ≠ "2020") :=
  C7_resolver_year_order probeOk0 "B01001" (some "acs/acs1") "2020" (by decide)

/-- C10 (confirmed): a search entity whose id is missing is skipped
silently by processBatch: no record is pushed, no fetch is issued, the
seen set and the fetched and pushed counters are untouched (the run
state is returned unchanged). -/
theorem C10_missing_id_skipped (env : Env) (ts : String) (st : RunState)
    (e : RawCensusEntity) (h : e.id = none) :
    processEntity env ts st e = st := by
  simp [processEntity, h]

/-- Concrete instance of C10_missing_id_skipped. -/
theorem C10_missing_id_skipped_witness :
    processEntity env400 "TS" initState entityNoId = initState :=
  C10_missing_id_skipped env400 "TS" initState entityNoId rfl

/-- Truthiness commutes with lifting an optional string to JSON. -/
theorem truthyOpt_strOpt (o : Option String) : truthyOpt (strOpt o) = strTruthy o := by
  cases o <;> simp [truthyOpt, strOpt, strTruthy, jsTruthy]

/-- a || b is a when a is defined and truthy. -/
theorem jsOr_of_truthy (a b : Option Json) (h : truthyOpt a = true) : jsOr a b = a := by
  cases a with
  | none => simp [truthyOpt] at h
  | some v => simp [truthyOpt] at h; simp [jsOr, h]

/-- a || b is b when a is undefined or falsy. -/
theorem jsOr_of_falsy (a b : Option Json) (h : truthyOpt a = false) : jsOr a b = b := by
  cases a with
  | none => rfl
  | some v => simp [truthyOpt] at h; simp [jsOr, h]

/-- Successful mapping pins the output fields that are direct functions
of the merged input: the identifier, the temporal fields, the data
payload and the capture timestamp. -/
theorem mapCensusTable_ok_fields (ts : String) (t : RawCensusTable) (r : OutputCensusTable)
    (h : mapCensusTable ts t = .ok r) :
    t.id = some r.tableId ∧ r.year = finalYearOf t ∧ r.vintage = finalVintageOf t ∧
    r.scrapedTimestamp = ts ∧ r.data = t.data := by
  cases hid : t.id with
  | none => simp only [mapCensusTable, hid] at h; exact absurd h (by simp)
  | some tid =>
    simp only [mapCensusTable, hid] at h
    by_cases he : tid = ""
    · rw [if_pos he] at h; exact absurd h (by simp)
    · rw [if_neg he] at h
      split at h
      · split at h
        · simp only [bind, Except.bind] at h
          split at h
          · exact absurd h (by simp)
          · split at h
            · exact absurd h (by simp)
            · split at h
              · exact absurd h (by simp)
              · injection h with h
                subst h
                exact ⟨rfl, rfl, rfl, rfl, rfl⟩
        · exact absurd h (by simp)
      · exact absurd h (by simp)

/-- C6 (corrected): the mapper derives the reference year in the
priority order explicit year, dataset-year field, four digits before
the dot of the identifier, dataset-vintage last (not dataset-vintage
at second priority); the vintage order is explicit vintage,
dataset-vintage, dataset-year, extracted digits. -/
theorem C6_temporal_priority (ts : String) (t : RawCensusTable) (r : OutputCensusTable)
    (h : mapCensusTable ts t = .ok r) :
    (strTruthy t.year = true → r.year = strOpt t.year) ∧
    (strTruthy t.year = false → truthyOpt (optChain (datasetDataOf t) "year") = true →
      r.year = optChain (datasetDataOf t) "year") ∧
    (strTruthy t.year = false → truthyOpt (optChain (datasetDataOf t) "year") = false →
      strTruthy (extractedYearOf t) = true → r.year = strOpt (extractedYearOf t)) ∧
    (strTruthy t.year = false → truthyOpt (optChain (datasetDataOf t) "year") = false →
      strTruthy (extractedYearOf t) = false → r.year = optChain (datasetDataOf t) "vintage") ∧
    (strTruthy t.vintage = true → r.vintage = strOpt t.vintage) ∧
    (strTruthy t.vintage = false → truthyOpt (optChain (datasetDataOf t) "vintage") = true →
      r.vintage = optChain (datasetDataOf t) "vintage") ∧
    (strTruthy t.vintage = false → truthyOpt (optChain (datasetDataOf t) "vintage") = false →
      truthyOpt (optChain (datasetDataOf t) "year") = true →
      r.vintage = optChain (datasetDataOf t) "year") ∧
    (strTruthy t.vintage = false → truthyOpt (optChain (datasetDataOf t) "vintage") = false →
      truthyOpt (optChain (datasetDataOf t) "year") = false →
      r.vintage = strOpt (extractedYearOf t)) := by
  obtain ⟨-, hy, hv, -, -⟩ := mapCensusTable_ok_fields ts t r h
  refine ⟨?_, ?_, ?_, ?_, ?_, ?_, ?_, ?_⟩
  · intro ha
    rw [hy]; unfold finalYearOf
    rw [jsOr_of_truthy _ _ (by rw [truthyOpt_strOpt]; exact ha)]
  · intro ha hb
    rw [hy]; unfold finalYearOf
    rw [jsOr_of_falsy _ _ (by rw [truthyOpt_strOpt]; exact ha), jsOr_of_truthy _ _ hb]
  · intro ha hb hc
    rw [hy]; unfold finalYearOf
    rw [jsOr_of_falsy _ _ (by rw [truthyOpt_strOpt]; exact ha), jsOr_of_falsy _ _ hb,
      jsOr_of_truthy _ _ (by rw [truthyOpt_strOpt]; exact hc)]
  · intro ha hb hc
    rw [hy]; unfold finalYearOf
    rw [jsOr_of_falsy _ _ (by rw [truthyOpt_strOpt]; exact ha), jsOr_of_falsy _ _ hb,
      jsOr_of_falsy _ _ (by rw [truthyOpt_strOpt]; exact hc)]
  · intro ha
    rw [hv]; unfold finalVintageOf
    rw [jsOr_of_truthy _ _ (by rw [truthyOpt_strOpt]; exact ha)]
  · intro ha hb
    rw [hv]; unfold finalVintageOf
    rw [jsOr_of_falsy _ _ (by rw [truthyOpt_strOpt]; exact ha), jsOr_of_truthy _ _ hb]
  · intro ha hb hc
    rw [hv]; unfold finalVintageOf
    rw [jsOr_of_falsy _ _ (by rw [truthyOpt_strOpt]; exact ha), jsOr_of_falsy _ _ hb,
      jsOr_of_truthy _ _ hc]
  · intro ha hb hc
    rw [hv]; unfold finalVintageOf
    rw [jsOr_of_falsy _ _ (by rw [truthyOpt_strOpt]; exact ha), jsOr_of_falsy _ _ hb,
      jsOr_of_falsy _ _ hc]

/-- C6 counterexample: on a merged input with no explicit year, a
dataset-vintage of 2005 and the identifier ACSDT1Y2021.B01001, the
mapper returns year 2021 (the digits extracted from the identifier),
not the dataset-vintage 2005 the claimed priority (b) would demand. -/
theorem C6_counterexample :
    (mapCensusTable "TS" tC6input).toOption.map OutputCensusTable.year =
      some (some (.str "2021")) ∧
    ¬ (mapCensusTable "TS" tC6input).toOption.map OutputCensusTable.year =
      some (some (.str "2005")) ∧
    optChain (datasetDataOf tC6input) "vintage" = some (.str "2005") ∧
    strTruthy tC6input.year = false := by
  refine ⟨rfl, ?_, rfl, rfl⟩
  intro h
  rw [show (mapCensusTable "TS" tC6input).toOption.map OutputCensusTable.year =
    some (some (.str "2021")) from rfl] at h
  simp at h

/-- Concrete instance of C6_temporal_priority at the scenario input:
the mapper resolves both year and vintage of ACSDT1Y2021.B01001 to the
extracted 2021 when no upstream field is present. -/
theorem C6_temporal_priority_witness :
    mapCensusTable "TS" tScenario = .ok rScenario ∧
    rScenario.year = strOpt (extractedYearOf tScenario) ∧
    rScenario.vintage = strOpt (extractedYearOf tScenario) ∧
    rScenario.year = some (.str "2021") ∧
    rScenario.vintage = some (.str "2021") ∧
    rScenario.tableId = "ACSDT1Y2021.B01001" :=
  ⟨rfl,
    (C6_temporal_priority "TS" tScenario rScenario rfl).2.2.1 rfl rfl rfl,
    (C6_temporal_priority "TS" tScenario rScenario rfl).2.2.2.2.2.2.2 rfl rfl rfl,
    rfl, rfl, rfl⟩

/-- A non-null element maps to some simplified measure. -/
theorem mapMeasure_ok_of_nonNull (m : Json) (h : isNullJ m = false) :
    ∃ w, mapMeasure m = .ok w := by
  cases m <;> first | exact ⟨_, rfl⟩ | simp [isNullJ] at h

/-- A non-null element maps to some simplified dimension. -/
theorem mapDimension_ok_of_nonNull (d : Json) (h : isNullJ d = false) :
    ∃ w, mapDimension d = .ok w := by
  cases d <;> first | exact ⟨_, rfl⟩ | simp [isNullJ] at h

/-- Unfolding of the measures map on a cons cell with successful head
and tail. -/
theorem mapMeasures_cons_ok (m : Json) (ms : List Json) (w : Json) (vs : List Json)
    (hm : mapMeasure m = .ok w) (hms : mapMeasures ms = .ok vs) :
    mapMeasures (m :: ms) = .ok (w :: vs) := by
  simp [mapMeasures, bind, Except.bind, hm, hms]

/-- Unfolding of the dimensions map on a cons cell with successful head
and tail. -/
theorem mapDimensions_cons_ok (d : Json) (ds : List Json) (w : Json) (vs : List Json)
    (hd : mapDimension d = .ok w) (hds : mapDimensions ds = .ok vs) :
    mapDimensions (d :: ds) = .ok (w :: vs) := by
  simp [mapDimensions, bind, Except.bind, hd, hds]

/-- The measures map succeeds on arrays of non-null elements. -/
theorem mapMeasures_ok_of_nonNull (ms : List Json) (h : arrAllNonNull ms = true) :
    ∃ vs, mapMeasures ms = .ok vs := by
  induction ms with
  | nil => exact ⟨[], rfl⟩
  | cons m ms ih =>
    simp only [arrAllNonNull, Bool.and_eq_true] at h
    obtain ⟨vs, hvs⟩ := ih h.2
    obtain ⟨w, hw⟩ := mapMeasure_ok_of_nonNull m (by simpa using h.1)
    exact ⟨w :: vs, mapMeasures_cons_ok m ms w vs hw hvs⟩

/-- The dimensions map succeeds on arrays of non-null elements. -/
theorem mapDimensions_ok_of_nonNull (ds : List Json) (h : arrAllNonNull ds = true) :
    ∃ vs, mapDimensions ds = .ok vs := by
  induction ds with
  | nil => exact ⟨[], rfl⟩
  | cons d ds ih =>
    simp only [arrAllNonNull, Bool.and_eq_true] at h
    obtain ⟨vs, hvs⟩ := ih h.2
    obtain ⟨w, hw⟩ := mapDimension_ok_of_nonNull d (by simpa using h.1)
    exact ⟨w :: vs, mapDimensions_cons_ok d ds w vs hw hvs⟩

/-- Unfolding of the geography scan on a non-null head. -/
theorem findGeo_cons_of_nonNull (d : Json) (ds : List Json) (h : isNullJ d = false) :
    findGeo (d :: ds) =
      if geoPred d then .ok (optChain (getField d "item") "label") else findGeo ds := by
  cases d <;> first | rfl | simp [isNullJ] at h

/-- The geography scan succeeds on arrays of non-null elements. -/
theorem findGeo_ok_of_nonNull (ds : List Json) (h : arrAllNonNull ds = true) :
    ∃ v, findGeo ds = .ok v := by
  induction ds with
  | nil => exact ⟨none, rfl⟩
  | cons d ds ih =>
    simp only [arrAllNonNull, Bool.and_eq_true] at h
    obtain ⟨v, hv⟩ := ih h.2
    have hd : isNullJ d = false := by simpa using h.1
    cases hp : geoPred d
    · exact ⟨v, by rw [findGeo_cons_of_nonNull d ds hd, hp]; simpa using hv⟩
    · exact ⟨optChain (getField d "item") "label",
        by rw [findGeo_cons_of_nonNull d ds hd, hp]; simp⟩

/-- A failing measure entry fails with a TypeError. -/
theorem mapMeasure_error_kind (m : Json) (e : MapErr)
    (h : mapMeasure m = .error e) : e = .typeError := by
  cases m <;> simp [mapMeasure] at h <;> first | exact h.symm | exact h

/-- A failing dimension entry fails with a TypeError. -/
theorem mapDimension_error_kind (d : Json) (e : MapErr)
    (h : mapDimension d = .error e) : e = .typeError := by
  cases d <;> simp [mapDimension] at h <;> first | exact h.symm | exact h

/-- A failing measures map fails with a TypeError. -/
theorem mapMeasures_error_kind (ms : List Json) (e : MapErr)
    (h : mapMeasures ms = .error e) : e = .typeError := by
  induction ms with
  | nil => simp [mapMeasures] at h
  | cons m ms ih =>
    simp only [mapMeasures, bind, Except.bind] at h
    cases hm : mapMeasure m with
    | error e' =>
      rw [hm] at h
      injection h with h
      exact h ▸ mapMeasure_error_kind m e' hm
    | ok v =>
      rw [hm] at h
      cases hr : mapMeasures ms with
      | error e2 => rw [hr] at h; injection h with h; exact ih (h ▸ hr)
      | ok vs => rw [hr] at h; simp at h

/-- A failing dimensions map fails with a TypeError. -/
theorem mapDimensions_error_kind (ds : List Json) (e : MapErr)
    (h : mapDimensions ds = .error e) : e = .typeError := by
  induction ds with
  | nil => simp [mapDimensions] at h
  | cons d ds ih =>
    simp only [mapDimensions, bind, Except.bind] at h
    cases hd : mapDimension d with
    | error e' =>
      rw [hd] at h
      injection h with h
      exact h ▸ mapDimension_error_kind d e' hd
    | ok v =>
      rw [hd] at h
      cases hr : mapDimensions ds with
      | error e2 => rw [hr] at h; injection h with h; exact ih (h ▸ hr)
      | ok vs => rw [hr] at h; simp at h

/-- A failing geography scan fails with a TypeError. -/
theorem findGeo_error_kind (ds : List Json) (e : MapErr)
    (h : findGeo ds = .error e) : e = .typeError := by
  induction ds with
  | nil => simp [findGeo] at h
  | cons d ds ih =>
    cases hd : isNullJ d
    · rw [findGeo_cons_of_nonNull d ds hd] at h
      split at h
      · simp at h
      · exact ih h
    · cases d <;> simp [isNullJ] at hd
      simp [findGeo] at h
      exact h.symm

/-- The empty-array fallback x || [] resolved by cases. -/
theorem fallbackArr (o : Option Json) :
    (jsOr o (some (.arr []))).getD (.arr []) =
      match o with
      | some v => if jsTruthy v then v else .arr []
      | none => .arr [] := by
  cases o with
  | none => rfl
  | some v => cases hv : jsTruthy v <;> simp [jsOr, hv]

/-- Any failure of the mapper on an input that carries a non-empty
identifier is a TypeError, never the invalid input kind. -/
theorem mapCensusTable_error_kind (ts : String) (t : RawCensusTable) (tid : String) (e : MapErr)
    (hid : t.id = some tid) (he : ¬ tid = "") (h : mapCensusTable ts t = .error e) :
    e = .typeError := by
  simp only [mapCensusTable, hid, if_neg he] at h
  split at h
  · split at h
    · simp only [bind, Except.bind] at h
      split at h
      · rename_i e1 heq1
        injection h with h
        exact h ▸ mapMeasures_error_kind _ _ heq1
      · split at h
        · rename_i e2 heq2
          injection h with h
          exact h ▸ mapDimensions_error_kind _ _ heq2
        · split at h
          · rename_i e3 heq3
            injection h with h
            subst h
            split at heq3
            · simp at heq3
            · simp at heq3
            · exact findGeo_error_kind _ _ heq3
            · injection heq3 with heq3; exact heq3.symm
          · simp at h
    · injection h with h; exact h.symm
  · injection h with h; exact h.symm

/-- On an input with a non-empty identifier and a well-shaped metadata
bag the mapper succeeds and echoes the identifier. -/
theorem mapCensusTable_ok_of_shape (ts : String) (t : RawCensusTable) (tid : String)
    (hid : t.id = some tid) (he : ¬ tid = "") (hshape : metaShapeOk t = true) :
    ∃ r, mapCensusTable ts t = .ok r ∧ r.tableId = tid := by
  unfold metaShapeOk at hshape
  simp only [Bool.and_eq_true] at hshape
  obtain ⟨⟨hms, hds⟩, hgeo⟩ := hshape
  simp only [mapCensusTable, hid, if_neg he]
  cases hmv : (jsOr (optChain (metadataContentOf t) "measures") (some (Json.arr []))).getD (Json.arr []) <;>
    rw [hmv] at hms
  case null => exact absurd hms (by simp)
  case bool b => exact absurd hms (by simp)
  case num n => exact absurd hms (by simp)
  case str s => exact absurd hms (by simp)
  case obj fs => exact absurd hms (by simp)
  case arr ms =>
  simp only [hmv]
  replace hms : arrAllNonNull ms = true := by simpa using hms
  obtain ⟨sms, hsms⟩ := mapMeasures_ok_of_nonNull ms hms
  cases hoptd : optChain (metadataContentOf t) "dimensions" with
  | none =>
    rw [show (jsOr none (some (Json.arr []))).getD (Json.arr []) = Json.arr [] from rfl]
    simp only [bind, Except.bind, hsms, mapDimensions]
    exact ⟨_, rfl, rfl⟩
  | some v =>
    cases v with
    | null =>
      rw [show (jsOr (some Json.null) (some (Json.arr []))).getD (Json.arr []) = Json.arr [] from rfl]
      simp only [bind, Except.bind, hsms, mapDimensions]
      exact ⟨_, rfl, rfl⟩
    | arr gds =>
      have hdv : (jsOr (optChain (metadataContentOf t) "dimensions") (some (Json.arr []))).getD (Json.arr []) =
          Json.arr gds := by rw [fallbackArr, hoptd]; rfl
      have hds2 : arrAllNonNull gds = true := by rw [hdv] at hds; simpa using hds
      obtain ⟨sds, hsds⟩ := mapDimensions_ok_of_nonNull gds hds2
      obtain ⟨geo, hgeoV⟩ := findGeo_ok_of_nonNull gds hds2
      rw [show (jsOr (some (Json.arr gds)) (some (Json.arr []))).getD (Json.arr []) = Json.arr gds from rfl]
      simp only [bind, Except.bind, hsms, hsds, hgeoV]
      exact ⟨_, rfl, rfl⟩
    | bool b => rw [hoptd] at hgeo; simp at hgeo
    | num n => rw [hoptd] at hgeo; simp at hgeo
    | str s => rw [hoptd] at hgeo; simp at hgeo
    | obj fs => rw [hoptd] at hgeo; simp at hgeo

/-- C8 (corrected): the mapper fails with the distinct invalid-input
error kind exactly when the merged input lacks a (truthy) identifier;
on inputs with an identifier it returns an OutputRecord whose tableId
equals the input identifier provided the untyped metadata bag is
well-shaped; a truthy non-array measures or dimensions value makes it
raise a TypeError instead (a distinct error kind), so it does not
return a record for every identified input. -/
theorem C8_mapper_contract :
    (∀ (ts : String) (t : RawCensusTable),
      mapCensusTable ts t = .error .invalidInput ↔ strTruthy t.id = false) ∧
    (∀ (ts : String) (t : RawCensusTable), strTruthy t.id = true → metaShapeOk t = true →
      ∃ r, mapCensusTable ts t = .ok r ∧ t.id = some r.tableId) ∧
    MapErr.invalidInput ≠ MapErr.typeError := by
  refine ⟨?_, ?_, by simp⟩
  · intro ts t
    constructor
    · intro h
      by_contra hne
      rw [Bool.not_eq_false] at hne
      cases hid : t.id with
      | none => rw [hid] at hne; simp [strTruthy] at hne
      | some tid =>
        rw [hid] at hne
        have he : ¬ tid = "" := by simpa [strTruthy] using hne
        have := mapCensusTable_error_kind ts t tid .invalidInput hid he h
        simp at this
    · intro h
      cases hid : t.id with
      | none => simp [mapCensusTable, hid]
      | some tid =>
        have he : tid = "" := by rw [hid] at h; simpa [strTruthy] using h
        simp [mapCensusTable, hid, he]
  · intro ts t h1 h2
    cases hid : t.id with
    | none => rw [hid] at h1; simp [strTruthy] at h1
    | some tid =>
      have he : ¬ tid = "" := by rw [hid] at h1; simpa [strTruthy] using h1
      obtain ⟨r, hr, hrid⟩ := mapCensusTable_ok_of_shape ts t tid hid he h2
      exact ⟨r, hr, by rw [hrid]⟩

/-- C8 counterexample: a merged input with the identifier T1 but a
numeric (truthy, non-array) measures value in its metadata bag makes
the mapper raise a TypeError, so the mapper does not return an
OutputRecord for every input that has an identifier. -/
theorem C8_counterexample :
    tC8bad.id = some "T1" ∧ strTruthy tC8bad.id = true ∧
    mapCensusTable "TS" tC8bad = .error .typeError ∧
    MapErr.typeError ≠ MapErr.invalidInput :=
  ⟨rfl, rfl, rfl, by simp⟩

/-- Concrete instance of C8_mapper_contract: the identifier-free input
fails with the invalid-input kind, and an identified well-shaped input
maps to a record echoing its identifier. -/
theorem C8_mapper_contract_witness :
    mapCensusTable "TS" tMissing = .error .invalidInput ∧
    (∃ r, mapCensusTable "TS" (mtOf "T2") = .ok r ∧ (mtOf "T2").id = some r.tableId) :=
  ⟨(C8_mapper_contract.1 "TS" tMissing).mpr rfl,
   C8_mapper_contract.2.1 "TS" (mtOf "T2") rfl rfl⟩

theorem jsonSizeList_replicate_null :
    ∀ n : Nat, jsonSizeList (List.replicate (n + 1) Json.null) = 5 * n + 4 := by
  intro n
  induction n with
  | zero => rfl
  | succ k ih =>
    rw [show List.replicate (k + 1 + 1) Json.null =
      Json.null :: List.replicate (k + 1) Json.null from rfl]
    rw [show List.replicate (k + 1) Json.null =
      Json.null :: List.replicate k Json.null from rfl]
    rw [show jsonSizeList (Json.null :: Json.null :: List.replicate k Json.null) =
      jsonSize Json.null + 1 + jsonSizeList (Json.null :: List.replicate k Json.null) from rfl]
    rw [show (Json.null :: List.replicate k Json.null) =
      List.replicate (k + 1) Json.null from rfl]
    rw [ih]
    simp [jsonSize]
    omega

theorem bigJson_size (n : Nat) : jsonSize (bigJson (n + 1)) = 5 * n + 6 := by
  rw [show jsonSize (bigJson (n + 1)) =
    2 + jsonSizeList (List.replicate (n + 1) Json.null) from rfl]
  rw [jsonSizeList_replicate_null]
  omega

theorem bigJson_1900000_size : jsonSize (bigJson 1900000) = 9500001 := by
  have h := bigJson_size 1899999
  rw [show (1899999 : Nat) + 1 = 1900000 from by norm_num] at h
  rw [h]

theorem jsonSize_obj (fs : List (String × Json)) :
    jsonSize (.obj fs) = 2 + jsonSizeFields fs := by
  simp [jsonSize]

theorem mkBigRecord_fields (v d : Json) :
    recordFields (mkBigRecord v d) =
      [("tableId", .str "T"), ("title", .str ""), ("url", .str ""),
       ("variables", v), ("data", d), ("scrapedTimestamp", .str "TS")] := rfl

theorem mkBigRecord_outputSize (v d : Json) :
    outputSizeOf (mkBigRecord v d) = 80 + jsonSize v + jsonSize d := by
  rw [outputSizeOf, mkBigRecord_fields, jsonSize_obj]
  simp only [jsonSizeFields]
  simp only [show jsonSize (Json.str "T") = 3 from rfl,
    show jsonSize (Json.str "") = 2 from rfl,
    show jsonSize (Json.str "TS") = 4 from rfl,
    show ("tableId").utf8ByteSize = 7 from rfl,
    show ("title").utf8ByteSize = 5 from rfl,
    show ("url").utf8ByteSize = 3 from rfl,
    show ("variables").utf8ByteSize = 9 from rfl,
    show ("data").utf8ByteSize = 4 from rfl,
    show ("scrapedTimestamp").utf8ByteSize = 16 from rfl]
  omega

theorem jsonSize_str (s : String) : jsonSize (.str s) = s.utf8ByteSize + 2 := by
  simp [jsonSize]

theorem mkBigRecord_step1Fields (v d : Json) :
    mainStep1Fields (mkBigRecord v d) =
      [("tableId", .str "T"), ("title", .str ""), ("url", .str ""), ("variables", v),
       ("scrapedTimestamp", .str "TS"),
       ("dataSizeMB", .str (toFixed2 (outputSizeOf (mkBigRecord v d)))),
       ("dataOmitted", .str "Data field omitted due to size limit (exceeds 9 MB)")] := by
  simp [mainStep1Fields, dropKey, mkBigRecord_fields]

theorem mkBigRecord_step1Size (v d : Json) :
    jsonSize (.obj (mainStep1Fields (mkBigRecord v d))) =
      156 + jsonSize v + (toFixed2 (outputSizeOf (mkBigRecord v d))).utf8ByteSize := by
  rw [mkBigRecord_step1Fields]
  rw [jsonSize_obj]
  simp only [jsonSizeFields, jsonSize_str]
  simp only [show ("T").utf8ByteSize = 1 from rfl,
    show ("").utf8ByteSize = 0 from rfl,
    show ("TS").utf8ByteSize = 2 from rfl,
    show ("tableId").utf8ByteSize = 7 from rfl,
    show ("title").utf8ByteSize = 5 from rfl,
    show ("url").utf8ByteSize = 3 from rfl,
    show ("variables").utf8ByteSize = 9 from rfl,
    show ("scrapedTimestamp").utf8ByteSize = 16 from rfl,
    show ("dataSizeMB").utf8ByteSize = 10 from rfl,
    show ("dataOmitted").utf8ByteSize = 11 from rfl,
    show ("Data field omitted due to size limit (exceeds 9 MB)").utf8ByteSize = 51 from rfl]
  omega

theorem mkBigRecord_step2Fields (v d : Json) :
    mainStep2Fields (mkBigRecord v d) =
      [("tableId", .str "T"), ("title", .str ""), ("url", .str ""),
       ("scrapedTimestamp", .str "TS"),
       ("dataSizeMB", .str (toFixed2 (outputSizeOf (mkBigRecord v d)))),
       ("dataOmitted", .str "Data field omitted due to size limit (exceeds 9 MB)"),
       ("variablesOmitted", .str "Variables field omitted due to size limit")] := by
  simp [mainStep2Fields, mkBigRecord_step1Fields, dropKey]

theorem mkBigRecord_step2Size (v d : Json) :
    jsonSize (.obj (mainStep2Fields (mkBigRecord v d))) =
      206 + (toFixed2 (outputSizeOf (mkBigRecord v d))).utf8ByteSize := by
  rw [mkBigRecord_step2Fields]
  rw [jsonSize_obj]
  simp only [jsonSizeFields, jsonSize_str]
  simp only [show ("T").utf8ByteSize = 1 from rfl,
    show ("").utf8ByteSize = 0 from rfl,
    show ("TS").utf8ByteSize = 2 from rfl,
    show ("tableId").utf8ByteSize = 7 from rfl,
    show ("title").utf8ByteSize = 5 from rfl,
    show ("url").utf8ByteSize = 3 from rfl,
    show ("scrapedTimestamp").utf8ByteSize = 16 from rfl,
    show ("dataSizeMB").utf8ByteSize = 10 from rfl,
    show ("dataOmitted").utf8ByteSize = 11 from rfl,
    show ("variablesOmitted").utf8ByteSize = 16 from rfl,
    show ("Data field omitted due to size limit (exceeds 9 MB)").utf8ByteSize = 51 from rfl,
    show ("Variables field omitted due to size limit").utf8ByteSize = 41 from rfl]
  omega

theorem mkBigRecord_dropVarsSize (v d : Json) :
    jsonSize (.obj (dropKey "variables" (recordFields (mkBigRecord v d)))) =
      67 + jsonSize d := by
  rw [show dropKey "variables" (recordFields (mkBigRecord v d)) =
    [("tableId", .str "T"), ("title", .str ""), ("url", .str ""),
     ("data", d), ("scrapedTimestamp", .str "TS")] from by
      simp [dropKey, mkBigRecord_fields]]
  rw [jsonSize_obj]
  simp only [jsonSizeFields, jsonSize_str]
  simp only [show ("T").utf8ByteSize = 1 from rfl,
    show ("").utf8ByteSize = 0 from rfl,
    show ("TS").utf8ByteSize = 2 from rfl,
    show ("tableId").utf8ByteSize = 7 from rfl,
    show ("title").utf8ByteSize = 5 from rfl,
    show ("url").utf8ByteSize = 3 from rfl,
    show ("data").utf8ByteSize = 4 from rfl,
    show ("scrapedTimestamp").utf8ByteSize = 16 from rfl]
  omega

theorem mkBigRecord_batchStep1Size (v d : Json) :
    jsonSize (.obj (batchStep1Fields (mkBigRecord v d))) = 145 + jsonSize d := by
  rw [show batchStep1Fields (mkBigRecord v d) =
    [("tableId", .str "T"), ("title", .str ""), ("url", .str ""),
     ("data", d), ("scrapedTimestamp", .str "TS"),
     ("variablesOmitted", .str "Variables field omitted due to size limit (exceeds 9 MB)")] from by
      simp [batchStep1Fields, dropKey, mkBigRecord_fields]]
  rw [jsonSize_obj]
  simp only [jsonSizeFields, jsonSize_str]
  simp only [show ("T").utf8ByteSize = 1 from rfl,
    show ("").utf8ByteSize = 0 from rfl,
    show ("TS").utf8ByteSize = 2 from rfl,
    show ("tableId").utf8ByteSize = 7 from rfl,
    show ("title").utf8ByteSize = 5 from rfl,
    show ("url").utf8ByteSize = 3 from rfl,
    show ("data").utf8ByteSize = 4 from rfl,
    show ("scrapedTimestamp").utf8ByteSize = 16 from rfl,
    show ("variablesOmitted").utf8ByteSize = 16 from rfl,
    show ("Variables field omitted due to size limit (exceeds 9 MB)").utf8ByteSize = 56 from rfl]
  omega

theorem sizeGuardMain_full (r : OutputCensusTable) (h : ¬ outputSizeOf r > MAX_ITEM_SIZE) :
    sizeGuardMain r = .full (recordFields r) := by
  simp [sizeGuardMain, h]

theorem sizeGuardMain_step1 (r : OutputCensusTable) (h1 : outputSizeOf r > MAX_ITEM_SIZE)
    (h2 : ¬ jsonSize (.obj (mainStep1Fields r)) > MAX_ITEM_SIZE) :
    sizeGuardMain r = .degraded (mainStep1Fields r) := by
  simp [sizeGuardMain, h1, h2]

theorem sizeGuardMain_step2 (r : OutputCensusTable) (h1 : outputSizeOf r > MAX_ITEM_SIZE)
    (h2 : jsonSize (.obj (mainStep1Fields r)) > MAX_ITEM_SIZE)
    (h3 : ¬ jsonSize (.obj (mainStep2Fields r)) > MAX_ITEM_SIZE) :
    sizeGuardMain r = .degraded (mainStep2Fields r) := by
  simp [sizeGuardMain, h1, h2, h3]

theorem sizeGuardBatch_step1 (r : OutputCensusTable) (h1 : outputSizeOf r > MAX_ITEM_SIZE)
    (h2 : ¬ jsonSize (.obj (batchStep1Fields r)) > MAX_ITEM_SIZE) :
    sizeGuardBatch r = .degraded (batchStep1Fields r) := by
  simp [sizeGuardBatch, h1, h2]

theorem hasKey_append (k : String) (l1 l2 : List (String × Json)) :
    hasKey k (l1 ++ l2) = (hasKey k l1 || hasKey k l2) := by
  simp [hasKey, List.any_append]

theorem hasKey_dropKey_self (k : String) (fs : List (String × Json)) :
    hasKey k (dropKey k fs) = false := by
  induction fs with
  | nil => rfl
  | cons kv fs ih =>
    by_cases h : kv.1 = k
    · simpa [dropKey, List.filter_cons, h] using ih
    · simpa [dropKey, hasKey, List.filter_cons, h] using ih

theorem hasKey_cons (k : String) (kv : String × Json) (fs : List (String × Json)) :
    hasKey k (kv :: fs) = (decide (kv.1 = k) || hasKey k fs) := by
  simp [hasKey]

theorem dropKey_cons_drop (k' : String) (kv : String × Json) (fs : List (String × Json))
    (hk : kv.1 = k') : dropKey k' (kv :: fs) = dropKey k' fs := by
  simp [dropKey, List.filter_cons, hk]

theorem dropKey_cons_keep (k' : String) (kv : String × Json) (fs : List (String × Json))
    (hk : ¬ kv.1 = k') : dropKey k' (kv :: fs) = kv :: dropKey k' fs := by
  simp [dropKey, List.filter_cons, hk]

theorem hasKey_dropKey_ne (k k' : String) (h : ¬ k = k') (fs : List (String × Json)) :
    hasKey k (dropKey k' fs) = hasKey k fs := by
  induction fs with
  | nil => rfl
  | cons kv fs ih =>
    by_cases hk : kv.1 = k'
    · have hne : ¬ kv.1 = k := fun he => h (he ▸ hk)
      rw [dropKey_cons_drop k' kv fs hk, ih, hasKey_cons]
      simp [hne]
    · rw [dropKey_cons_keep k' kv fs hk, hasKey_cons, ih, hasKey_cons]

theorem hasKey_optField (k k2 : String) (v : Option Json) :
    hasKey k2 (optField k v) = (v.isSome && decide (k = k2)) := by
  cases v <;> simp [optField, hasKey]

theorem hasKey_variables_recordFields (r : OutputCensusTable) :
    hasKey "variables" (recordFields r) = true := by
  simp [recordFields, hasKey_append, hasKey_optField, hasKey]

theorem mem_optField (k : String) (v : Option Json) (a : String) (b : Json)
    (h : (a, b) ∈ optField k v) : a = k := by
  cases v with
  | none => simp [optField] at h
  | some x =>
    simp [optField] at h
    exact h.1

theorem hasKey_variablesOmitted_recordFields (r : OutputCensusTable) :
    hasKey "variablesOmitted" (recordFields r) = false := by
  simp [recordFields, hasKey_append, hasKey_optField, hasKey]
  refine ⟨?_, ?_, ?_, ?_, ?_, ?_, ?_⟩ <;>
    exact fun a b h => by rw [mem_optField _ _ _ _ h]; simp

theorem hasKey_dataOmitted_recordFields (r : OutputCensusTable) :
    hasKey "dataOmitted" (recordFields r) = false := by
  simp [recordFields, hasKey_append, hasKey_optField, hasKey]
  refine ⟨?_, ?_, ?_, ?_, ?_, ?_, ?_⟩ <;>
    exact fun a b h => by rw [mem_optField _ _ _ _ h]; simp

theorem bigVars_outputSize : outputSizeOf bigVarsRecord = 9500083 := by
  have h := mkBigRecord_outputSize (bigJson 1900000) (.str "")
  rw [bigJson_1900000_size, jsonSize_str,
    show ("").utf8ByteSize = 0 from rfl] at h
  norm_num at h
  exact h

theorem bigVars_tf :
    (toFixed2 (outputSizeOf (mkBigRecord (bigJson 1900000) (.str "")))).utf8ByteSize = 4 := by
  rw [show outputSizeOf (mkBigRecord (bigJson 1900000) (.str "")) =
    outputSizeOf bigVarsRecord from rfl, bigVars_outputSize]
  rfl

theorem bigVars_step1Size : jsonSize (.obj (mainStep1Fields bigVarsRecord)) = 9500161 := by
  have h := mkBigRecord_step1Size (bigJson 1900000) (.str "")
  rw [bigJson_1900000_size, bigVars_tf] at h
  norm_num at h
  exact h

theorem bigVars_step2Size : jsonSize (.obj (mainStep2Fields bigVarsRecord)) = 210 := by
  have h := mkBigRecord_step2Size (bigJson 1900000) (.str "")
  rw [bigVars_tf] at h
  norm_num at h
  exact h

theorem bigVars_dropVarsSize :
    jsonSize (.obj (dropKey "variables" (recordFields bigVarsRecord))) = 69 := by
  have h := mkBigRecord_dropVarsSize (bigJson 1900000) (.str "")
  rw [jsonSize_str, show ("").utf8ByteSize = 0 from rfl] at h
  norm_num at h
  exact h

theorem bigVars_batchStep1Size :
    jsonSize (.obj (batchStep1Fields bigVarsRecord)) = 147 := by
  have h := mkBigRecord_batchStep1Size (bigJson 1900000) (.str "")
  rw [jsonSize_str, show ("").utf8ByteSize = 0 from rfl] at h
  norm_num at h
  exact h

theorem bigData_outputSize : outputSizeOf bigDataRecord = 9500083 := by
  have h := mkBigRecord_outputSize (.arr []) (bigJson 1900000)
  rw [bigJson_1900000_size, show jsonSize (Json.arr []) = 2 from rfl] at h
  norm_num at h
  exact h

theorem bigData_tf :
    (toFixed2 (outputSizeOf (mkBigRecord (.arr []) (bigJson 1900000)))).utf8ByteSize = 4 := by
  rw [show outputSizeOf (mkBigRecord (.arr []) (bigJson 1900000)) =
    outputSizeOf bigDataRecord from rfl, bigData_outputSize]
  rfl

theorem bigData_step1Size : jsonSize (.obj (mainStep1Fields bigDataRecord)) = 162 := by
  have h := mkBigRecord_step1Size (.arr []) (bigJson 1900000)
  rw [bigData_tf, show jsonSize (Json.arr []) = 2 from rfl] at h
  norm_num at h
  exact h

theorem hasKey_dataOmitted_step1 (r : OutputCensusTable) :
    hasKey "dataOmitted" (mainStep1Fields r) = true := by
  simp [mainStep1Fields, hasKey_append, hasKey]

theorem hasKey_data_step1 (r : OutputCensusTable) :
    hasKey "data" (mainStep1Fields r) = false := by
  simp only [mainStep1Fields, hasKey_append]
  rw [hasKey_dropKey_self]
  simp [hasKey]

theorem hasKey_variables_step1 (r : OutputCensusTable) :
    hasKey "variables" (mainStep1Fields r) = true := by
  simp only [mainStep1Fields, hasKey_append]
  rw [hasKey_dropKey_ne _ _ (by decide), hasKey_variables_recordFields]
  simp

theorem hasKey_variablesOmitted_step1 (r : OutputCensusTable) :
    hasKey "variablesOmitted" (mainStep1Fields r) = false := by
  simp only [mainStep1Fields, hasKey_append]
  rw [hasKey_dropKey_ne _ _ (by decide), hasKey_variablesOmitted_recordFields]
  simp [hasKey]

theorem hasKey_data_step2 (r : OutputCensusTable) :
    hasKey "data" (mainStep2Fields r) = false := by
  simp only [mainStep2Fields, hasKey_append]
  rw [hasKey_dropKey_ne _ _ (by decide), hasKey_data_step1]
  simp [hasKey]

theorem hasKey_variablesOmitted_step2 (r : OutputCensusTable) :
    hasKey "variablesOmitted" (mainStep2Fields r) = true := by
  simp [mainStep2Fields, hasKey_append, hasKey]

theorem hasKey_variablesOmitted_batch1 (r : OutputCensusTable) :
    hasKey "variablesOmitted" (batchStep1Fields r) = true := by
  simp [batchStep1Fields, hasKey_append, hasKey]

theorem hasKey_variables_batch1 (r : OutputCensusTable) :
    hasKey "variables" (batchStep1Fields r) = false := by
  simp only [batchStep1Fields, hasKey_append]
  rw [hasKey_dropKey_self]
  simp [hasKey]

theorem hasKey_data_batch1 (r : OutputCensusTable) :
    hasKey "data" (batchStep1Fields r) = hasKey "data" (recordFields r) := by
  simp only [batchStep1Fields, hasKey_append]
  rw [hasKey_dropKey_ne _ _ (by decide)]
  simp [hasKey]

theorem hasKey_dataOmitted_batch1 (r : OutputCensusTable) :
    hasKey "dataOmitted" (batchStep1Fields r) = false := by
  simp only [batchStep1Fields, hasKey_append]
  rw [hasKey_dropKey_ne _ _ (by decide), hasKey_dataOmitted_recordFields]
  simp [hasKey]

/-- C1 (corrected): the size guard of src/main.ts deletes the data
field first (flagging it omitted) and re-measures, and only when the
record is still over budget does it additionally delete variables; so
a record over budget that fits after deleting data alone is emitted
with data flagged omitted and variables intact.  The historical batch
variant of part_001 deletes variables first, as the claim states, and
there a record that fits after deleting variables alone keeps its data. -/
theorem C1_degradation_order :
    (∀ r : OutputCensusTable, outputSizeOf r > MAX_ITEM_SIZE →
      jsonSize (.obj (mainStep1Fields r)) ≤ MAX_ITEM_SIZE →
      sizeGuardMain r = .degraded (mainStep1Fields r) ∧
      hasKey "dataOmitted" (mainStep1Fields r) = true ∧
      hasKey "data" (mainStep1Fields r) = false ∧
      hasKey "variables" (mainStep1Fields r) = true ∧
      hasKey "variablesOmitted" (mainStep1Fields r) = false) ∧
    (∀ r : OutputCensusTable, outputSizeOf r > MAX_ITEM_SIZE →
      jsonSize (.obj (batchStep1Fields r)) ≤ MAX_ITEM_SIZE →
      sizeGuardBatch r = .degraded (batchStep1Fields r) ∧
      hasKey "variablesOmitted" (batchStep1Fields r) = true ∧
      hasKey "variables" (batchStep1Fields r) = false ∧
      hasKey "data" (batchStep1Fields r) = hasKey "data" (recordFields r) ∧
      hasKey "dataOmitted" (batchStep1Fields r) = false) :=
  ⟨fun r h1 h2 =>
    ⟨sizeGuardMain_step1 r h1 (by omega), hasKey_dataOmitted_step1 r, hasKey_data_step1 r,
     hasKey_variables_step1 r, hasKey_variablesOmitted_step1 r⟩,
   fun r h1 h2 =>
    ⟨sizeGuardBatch_step1 r h1 (by omega), hasKey_variablesOmitted_batch1 r,
     hasKey_variables_batch1 r, hasKey_data_batch1 r, hasKey_dataOmitted_batch1 r⟩⟩

/-- C1 counterexample: a record over budget whose size falls under
budget after removing variables alone (its variables payload is huge,
its data tiny) is nevertheless emitted by the main.ts guard with BOTH
fields deleted, because the guard deletes data first: the emitted
record does not keep its data, contradicting the claimed order. -/
theorem C1_counterexample :
    outputSizeOf bigVarsRecord > MAX_ITEM_SIZE ∧
    jsonSize (.obj (dropKey "variables" (recordFields bigVarsRecord))) ≤ MAX_ITEM_SIZE ∧
    sizeGuardMain bigVarsRecord = .degraded (mainStep2Fields bigVarsRecord) ∧
    hasKey "variablesOmitted" (mainStep2Fields bigVarsRecord) = true ∧
    hasKey "data" (mainStep2Fields bigVarsRecord) = false := by
  refine ⟨?_, ?_, ?_, hasKey_variablesOmitted_step2 bigVarsRecord,
    hasKey_data_step2 bigVarsRecord⟩
  · rw [bigVars_outputSize]; norm_num [MAX_ITEM_SIZE]
  · rw [bigVars_dropVarsSize]; norm_num [MAX_ITEM_SIZE]
  · exact sizeGuardMain_step2 bigVarsRecord
      (by rw [bigVars_outputSize]; norm_num [MAX_ITEM_SIZE])
      (by rw [bigVars_step1Size]; norm_num [MAX_ITEM_SIZE])
      (by rw [bigVars_step2Size]; norm_num [MAX_ITEM_SIZE])

/-- Concrete instance of C1_degradation_order: a record whose data
payload alone is over budget is emitted by the main.ts guard with data
omitted and variables intact, and a record whose variables payload is
over budget is emitted by the batch-variant guard with variables
omitted and data intact. -/
theorem C1_degradation_order_witness :
    (sizeGuardMain bigDataRecord = .degraded (mainStep1Fields bigDataRecord) ∧
     hasKey "dataOmitted" (mainStep1Fields bigDataRecord) = true ∧
     hasKey "data" (mainStep1Fields bigDataRecord) = false ∧
     hasKey "variables" (mainStep1Fields bigDataRecord) = true ∧
     hasKey "variablesOmitted" (mainStep1Fields bigDataRecord) = false) ∧
    (sizeGuardBatch bigVarsRecord = .degraded (batchStep1Fields bigVarsRecord) ∧
     hasKey "variablesOmitted" (batchStep1Fields bigVarsRecord) = true ∧
     hasKey "variables" (batchStep1Fields bigVarsRecord) = false ∧
     hasKey "data" (batchStep1Fields bigVarsRecord) = hasKey "data" (recordFields bigVarsRecord) ∧
     hasKey "dataOmitted" (batchStep1Fields bigVarsRecord) = false) :=
  ⟨C1_degradation_order.1 bigDataRecord
      (by rw [bigData_outputSize]; norm_num [MAX_ITEM_SIZE])
      (by rw [bigData_step1Size]; norm_num [MAX_ITEM_SIZE]),
   C1_degradation_order.2 bigVarsRecord
      (by rw [bigVars_outputSize]; norm_num [MAX_ITEM_SIZE])
      (by rw [bigVars_batchStep1Size]; norm_num [MAX_ITEM_SIZE])⟩

/-- C5 (corrected): any record the size guards emit, full or degraded,
has serialized size at most the budget; but a degradation step need
not shrink the record below its original size, since the deleted field
is replaced by omission-notice fields. -/
theorem C5_guard_budget (r : OutputCensusTable) (fs : List (String × Json)) :
    (sizeGuardMain r = .degraded fs → jsonSize (.obj fs) ≤ MAX_ITEM_SIZE) ∧
    (sizeGuardBatch r = .degraded fs → jsonSize (.obj fs) ≤ MAX_ITEM_SIZE) ∧
    (sizeGuardMain r = .full fs → jsonSize (.obj fs) ≤ MAX_ITEM_SIZE) ∧
    (sizeGuardBatch r = .full fs → jsonSize (.obj fs) ≤ MAX_ITEM_SIZE) := by
  refine ⟨?_, ?_, ?_, ?_⟩ <;> intro h <;>
    simp only [sizeGuardMain, sizeGuardBatch] at h <;>
    split_ifs at h with h1 h2 h3 <;>
    first
      | (injection h with h
         subst h
         first
           | omega
           | (rw [show outputSizeOf r = jsonSize (.obj (recordFields r)) from rfl] at h1; omega))
      | injection h

/-- C5 counterexample: a record over budget whose variables payload is
huge and whose data field is tiny grows at the first degradation step
of the main.ts guard: deleting the tiny data field while appending the
dataSizeMB and dataOmitted notices yields a re-measured size strictly
larger than the original. -/
theorem C5_counterexample :
    outputSizeOf bigVarsRecord > MAX_ITEM_SIZE ∧
    jsonSize (.obj (mainStep1Fields bigVarsRecord)) > outputSizeOf bigVarsRecord := by
  constructor
  · rw [bigVars_outputSize]; norm_num [MAX_ITEM_SIZE]
  · rw [bigVars_step1Size, bigVars_outputSize]; norm_num

/-- Concrete instance of C5_guard_budget: the degraded record emitted
for an oversized data payload is within the budget. -/
theorem C5_guard_budget_witness :
    jsonSize (.obj (mainStep1Fields bigDataRecord)) ≤ MAX_ITEM_SIZE :=
  (C5_guard_budget bigDataRecord (mainStep1Fields bigDataRecord)).1
    (sizeGuardMain_step1 bigDataRecord
      (by rw [bigData_outputSize]; norm_num [MAX_ITEM_SIZE])
      (by rw [bigData_step1Size]; norm_num [MAX_ITEM_SIZE]))

/-- An environment whose metadata endpoint fails for identifier A and
echoes the requested identifier otherwise. -/
def envAfail : Env :=
  { meta := fun tid =>
      if tid = "A" then .error "Metadata request failed with status 400: Bad Request"
      else .ok (mtOf tid),
    dataData := fun _ => none }

/-- An environment whose metadata responses preserve the requested
identifier (the actualTableId of fetchTableMetadata equals the
requested id). -/
def IdPreserving (env : Env) : Prop :=
  ∀ tid mt, env.meta tid = .ok mt → mt.id = some tid

/-- The shape every error record of the search path has: the run
timestamp, a non-empty message, and the table and entity identifier
slots both populated with the same identifier. -/
def ErrOK (ts : String) (er : OutputError) : Prop :=
  er.scrapedTimestamp = ts ∧ er.errorMessage ≠ "" ∧
    ∃ t, er.tableId = some t ∧ er.entityId = some t

/-- The dedup invariant of a run state: the seen set has no duplicates
and the pushed result identifiers are an injective image of a
subsequence of it. -/
def DedupInv (st : RunState) : Prop :=
  st.seen.Nodup ∧ ∃ l : List String, l.Sublist st.seen ∧
    pushedTableIds st.pushed = l.map (fun t => some (.str t))

theorem pushedTableIds_append (l1 l2 : List PushedItem) :
    pushedTableIds (l1 ++ l2) = pushedTableIds l1 ++ pushedTableIds l2 := by
  induction l1 with
  | nil => rfl
  | cons it rest ih => cases it <;> simp [pushedTableIds, ih]

theorem pushedErrors_append (l1 l2 : List PushedItem) :
    pushedErrors (l1 ++ l2) = pushedErrors l1 ++ pushedErrors l2 := by
  induction l1 with
  | nil => rfl
  | cons it rest ih => cases it <;> simp [pushedErrors, ih]

theorem processEntity_totalPushed_le (env : Env) (ts : String) (st : RunState)
    (e : RawCensusEntity) :
    (processEntity env ts st e).totalPushed ≤ st.totalPushed + 1 := by
  cases hid : e.id with
  | none => simp [processEntity, hid]
  | some tid =>
    simp only [processEntity, hid]
    split_ifs with h0 h1
    · omega
    · omega
    · cases hmeta : env.meta tid with
      | error msg => simp [hmeta, pushItem]
      | ok mt =>
        cases hmc : mapCensusTable ts (buildMerged mt (env.dataData tid)) with
        | error me => simp [hmeta, hmc, pushItem]
        | ok rec =>
          cases hg : sizeGuardMain rec with
          | full fs => simp [hmeta, hmc, hg, pushItem]
          | degraded fs => simp [hmeta, hmc, hg, pushItem]
          | tooLarge a b => simp [hmeta, hmc, hg, pushItem]

theorem runBatch_totalPushed_le (env : Env) (ts : String) (b : List RawCensusEntity)
    (st : RunState) :
    (runBatch env ts st b).totalPushed ≤ st.totalPushed + b.length := by
  induction b generalizing st with
  | nil => simp [runBatch]
  | cons e rest ih =>
    simp only [runBatch, List.foldl_cons] at *
    have h1 := ih (processEntity env ts st e)
    have h2 := processEntity_totalPushed_le env ts st e
    simp only [List.length_cons]
    omega

theorem runBatches_totalPushed_le (env : Env) (ts : String) (cap : Option Nat)
    (fuel : Nat) (es : List RawCensusEntity) (st : RunState) :
    (runBatches env ts cap fuel es st).totalPushed ≤ st.totalPushed + es.length := by
  induction fuel generalizing es st with
  | zero => simp [runBatches]
  | succ n ih =>
    cases es with
    | nil => simp [runBatches]
    | cons e rest =>
      simp only [runBatches]
      split_ifs with h
      · exact Nat.le_add_right _ _
      · have h1 := runBatch_totalPushed_le env ts ((e :: rest).take BATCH_SIZE) st
        have h2 := ih ((e :: rest).drop BATCH_SIZE)
          (runBatch env ts st ((e :: rest).take BATCH_SIZE))
        have h3 : ((e :: rest).take BATCH_SIZE).length
            + ((e :: rest).drop BATCH_SIZE).length = (e :: rest).length := by
          rw [List.length_take, List.length_drop]
          omega
        omega

theorem appendCapped_length_le (m : Nat) (hm : 0 < m) (es acc : List RawCensusEntity)
    (h : acc.length ≤ m) : (appendCapped (some m) acc es).length ≤ m := by
  induction es generalizing acc with
  | nil => simpa [appendCapped] using h
  | cons e rest ih =>
    simp only [appendCapped]
    split_ifs with hc
    · exact h
    · apply ih
      have hm' : ¬ m = 0 := by omega
      simp [capHit, hm'] at hc
      simp only [List.length_append, List.length_cons, List.length_nil]
      omega

theorem fetchPages_length_le (search : Nat → List RawCensusEntity) (m : Nat) (hm : 0 < m)
    (fuel : Nat) : ∀ (page : Nat) (acc : List RawCensusEntity), acc.length ≤ m →
    (fetchPages search (some m) fuel page acc).length ≤ m := by
  induction fuel with
  | zero => intro page acc h; simpa [fetchPages] using h
  | succ n ih =>
    intro page acc h
    simp only [fetchPages]
    split_ifs with h1 h2 h3
    · exact h
    · exact h
    · exact appendCapped_length_le m hm _ _ h
    · exact ih _ _ (appendCapped_length_le m hm _ _ h)

theorem runSearchCollection_totalPushed_le (env : Env) (ts : String)
    (search : Nat → List RawCensusEntity) (m : Nat) (hm : 0 < m) (fuel : Nat) :
    (runSearchCollection env ts search (some m) fuel).totalPushed ≤ m := by
  have h1 := runBatches_totalPushed_le env ts (some m)
    (fetchAllSearchResults search (some m) fuel).length
    (fetchAllSearchResults search (some m) fuel) initState
  have h2 : (fetchAllSearchResults search (some m) fuel).length ≤ m :=
    fetchPages_length_le search m hm fuel 0 [] (by simp)
  have h3 : initState.totalPushed = 0 := rfl
  simp only [runSearchCollection]
  omega

/-- C2 (confirmed): the total number of pushed records (successes and
errors together) never exceeds a positive effective maxItems cap (the
search-result list is already truncated at the cap and each entity
pushes at most one record), and the batch loop consults the cap only
before starting a batch: a started batch is always processed to
completion. -/
theorem C2_cap_and_batch_integrity :
    (∀ (env : Env) (ts : String) (search : Nat → List RawCensusEntity) (m fuel : Nat),
      0 < m → (runSearchCollection env ts search (some m) fuel).totalPushed ≤ m) ∧
    (∀ (env : Env) (ts : String) (cap : Option Nat) (fuel : Nat)
        (e : RawCensusEntity) (es : List RawCensusEntity) (st : RunState),
      capHit cap st.totalPushed = false →
      runBatches env ts cap (fuel + 1) (e :: es) st =
        runBatches env ts cap fuel ((e :: es).drop BATCH_SIZE)
          (runBatch env ts st ((e :: es).take BATCH_SIZE))) := by
  constructor
  · intro env ts search m fuel hm
    exact runSearchCollection_totalPushed_le env ts search m hm fuel
  · intro env ts cap fuel e es st h
    simp only [runBatches]
    rw [if_neg (by simp [h])]

/-- Concrete instance of C2_cap_and_batch_integrity: with a cap of one
the two-entity search run pushes at most one record, and a batch whose
cap is not yet reached is processed whole. -/
theorem C2_cap_and_batch_integrity_witness :
    (runSearchCollection envOK "TS" searchAB (some 1) 3).totalPushed ≤ 1 ∧
    runBatches envOK "TS" (some 5) 1 [entityA] initState =
      runBatches envOK "TS" (some 5) 0 ([entityA].drop BATCH_SIZE)
        (runBatch envOK "TS" initState ([entityA].take BATCH_SIZE)) :=
  ⟨C2_cap_and_batch_integrity.1 envOK "TS" searchAB 1 3 (by decide),
   C2_cap_and_batch_integrity.2 envOK "TS" (some 5) 0 entityA [] initState (by decide)⟩

theorem lookupField_append_of_some (fs gs : List (String × Json)) (k : String) (v : Json)
    (h : lookupField fs k = some v) : lookupField (fs ++ gs) k = some v := by
  induction fs with
  | nil => simp [lookupField] at h
  | cons kv rest ih =>
    obtain ⟨k1, v1⟩ := kv
    simp only [lookupField, List.cons_append] at *
    split_ifs at h ⊢ with hk
    · exact h
    · exact ih h

theorem lookupField_dropKey_ne (k k2 : String) (fs : List (String × Json)) (h : ¬ k2 = k) :
    lookupField (dropKey k fs) k2 = lookupField fs k2 := by
  induction fs with
  | nil => rfl
  | cons kv rest ih =>
    obtain ⟨k1, v1⟩ := kv
    by_cases h1 : k1 = k
    · rw [dropKey_cons_drop k (k1, v1) rest h1, ih, lookupField,
        if_neg (by rw [h1]; exact fun hh => h hh.symm)]
    · rw [dropKey_cons_keep k (k1, v1) rest h1]
      simp only [lookupField]
      split_ifs with h2
      · rfl
      · exact ih

theorem lookupField_recordFields_tableId (r : OutputCensusTable) :
    lookupField (recordFields r) "tableId" = some (.str r.tableId) := by
  simp [recordFields, lookupField]

set_option maxHeartbeats 1000000 in
theorem sizeGuardMain_lookup_tableId (r : OutputCensusTable) (fs : List (String × Json))
    (h : sizeGuardMain r = .full fs ∨ sizeGuardMain r = .degraded fs) :
    lookupField fs "tableId" = some (.str r.tableId) := by
  have hrec := lookupField_recordFields_tableId r
  have hs1 : lookupField (mainStep1Fields r) "tableId" = some (.str r.tableId) := by
    simp only [mainStep1Fields]
    exact lookupField_append_of_some _ _ _ _
      (by rw [lookupField_dropKey_ne "data" "tableId" (recordFields r) (by decide)]; exact hrec)
  have hs2 : lookupField (mainStep2Fields r) "tableId" = some (.str r.tableId) := by
    simp only [mainStep2Fields]
    exact lookupField_append_of_some _ _ _ _
      (by rw [lookupField_dropKey_ne "variables" "tableId" (mainStep1Fields r) (by decide)]; exact hs1)
  rcases h with h | h <;>
    simp only [sizeGuardMain] at h <;>
    split_ifs at h with h1 h2 h3 <;>
    first
      | (injection h with h; subst h; assumption)
      | injection h

theorem buildMerged_id (mt : RawCensusTable) (dd : Option Json) :
    (buildMerged mt dd).id = mt.id := rfl

/-- The synchronous state update made for a fresh identifier before
its fetches are awaited. -/
def stepState (st : RunState) (tid : String) : RunState :=
  { st with
    seen := st.seen ++ [tid]
    totalFetched := st.totalFetched + 1
    metaLog := st.metaLog ++ [tid]
    dataLog := st.dataLog ++ [tid] }

theorem processEntity_eq_skip_dup (env : Env) (ts : String) (st : RunState)
    (e : RawCensusEntity) (tid : String) (hid : e.id = some tid)
    (h1 : st.seen.contains tid = true) :
    processEntity env ts st e = st := by
  have hm : tid ∈ st.seen := by simpa using h1
  simp [processEntity, hid, hm]

theorem processEntity_eq_metaError (env : Env) (ts : String) (st : RunState)
    (e : RawCensusEntity) (tid msg : String) (hid : e.id = some tid) (h0 : ¬ tid = "")
    (h1 : st.seen.contains tid = false) (hmeta : env.meta tid = .error msg) :
    processEntity env ts st e = pushItem (stepState st tid) (.errorRec
      { error := "Failed to process table", tableId := some tid, entityId := some tid,
        errorMessage := msg, scrapedTimestamp := ts }) := by
  have hmem : tid ∉ st.seen := by simpa using h1
  simp [processEntity, hid, h0, hmem, hmeta, stepState, pushItem]

theorem processEntity_eq_mapError (env : Env) (ts : String) (st : RunState)
    (e : RawCensusEntity) (tid : String) (mt : RawCensusTable) (me : MapErr)
    (hid : e.id = some tid) (h0 : ¬ tid = "") (h1 : st.seen.contains tid = false)
    (hmeta : env.meta tid = .ok mt)
    (hmc : mapCensusTable ts (buildMerged mt (env.dataData tid)) = .error me) :
    processEntity env ts st e = pushItem (stepState st tid) (.errorRec
      { error := "Failed to process table", tableId := some tid, entityId := some tid,
        errorMessage := mapErrMessage me, scrapedTimestamp := ts }) := by
  have hmem : tid ∉ st.seen := by simpa using h1
  simp [processEntity, hid, h0, hmem, hmeta, hmc, stepState, pushItem]

theorem processEntity_eq_result (env : Env) (ts : String) (st : RunState)
    (e : RawCensusEntity) (tid : String) (mt : RawCensusTable) (rec : OutputCensusTable)
    (fs : List (String × Json)) (hid : e.id = some tid) (h0 : ¬ tid = "")
    (h1 : st.seen.contains tid = false) (hmeta : env.meta tid = .ok mt)
    (hmc : mapCensusTable ts (buildMerged mt (env.dataData tid)) = .ok rec)
    (hg : sizeGuardMain rec = .full fs ∨ sizeGuardMain rec = .degraded fs) :
    processEntity env ts st e = pushItem (stepState st tid) (.result fs) := by
  have hmem : tid ∉ st.seen := by simpa using h1
  rcases hg with hg | hg <;>
    simp [processEntity, hid, h0, hmem, hmeta, hmc, hg, stepState, pushItem]

theorem processEntity_eq_tooLarge (env : Env) (ts : String) (st : RunState)
    (e : RawCensusEntity) (tid : String) (mt : RawCensusTable) (rec : OutputCensusTable)
    (orig fin : Nat) (hid : e.id = some tid) (h0 : ¬ tid = "")
    (h1 : st.seen.contains tid = false) (hmeta : env.meta tid = .ok mt)
    (hmc : mapCensusTable ts (buildMerged mt (env.dataData tid)) = .ok rec)
    (hg : sizeGuardMain rec = .tooLarge orig fin) :
    processEntity env ts st e = pushItem (stepState st tid) (.errorRec
      { error := "Table too large to process", tableId := some tid, entityId := some tid,
        errorMessage := mainTooLargeMsg orig fin, scrapedTimestamp := ts }) := by
  have hmem : tid ∉ st.seen := by simpa using h1
  simp [processEntity, hid, h0, hmem, hmeta, hmc, hg, stepState, pushItem]

theorem processEntity_dedup_inv (env : Env) (henv : IdPreserving env) (ts : String)
    (st : RunState) (e : RawCensusEntity) (hinv : DedupInv st) :
    DedupInv (processEntity env ts st e) := by
  obtain ⟨hnd, l, hsub, hmap⟩ := hinv
  cases hid : e.id with
  | none => simp only [processEntity, hid]; exact ⟨hnd, l, hsub, hmap⟩
  | some tid =>
    by_cases h0 : tid = ""
    · simp only [processEntity, hid, if_pos h0]; exact ⟨hnd, l, hsub, hmap⟩
    by_cases h1 : st.seen.contains tid = true
    · rw [processEntity_eq_skip_dup env ts st e tid hid h1]; exact ⟨hnd, l, hsub, hmap⟩
    have h1' : st.seen.contains tid = false := by simpa using h1
    have hmem : tid ∉ st.seen := by simpa using h1'
    have hnd' : (st.seen ++ [tid]).Nodup := by
      simp [List.nodup_append, hnd, hmem]
    cases hmeta : env.meta tid with
    | error msg =>
      rw [processEntity_eq_metaError env ts st e tid msg hid h0 h1' hmeta]
      exact ⟨hnd', l, hsub.trans (List.sublist_append_left _ _),
        by simp [pushItem, stepState, pushedTableIds_append, pushedTableIds, hmap]⟩
    | ok mt =>
      cases hmc : mapCensusTable ts (buildMerged mt (env.dataData tid)) with
      | error me =>
        rw [processEntity_eq_mapError env ts st e tid mt me hid h0 h1' hmeta hmc]
        exact ⟨hnd', l, hsub.trans (List.sublist_append_left _ _),
          by simp [pushItem, stepState, pushedTableIds_append, pushedTableIds, hmap]⟩
      | ok rec =>
        have hrid : rec.tableId = tid := by
          have h5 := (mapCensusTable_ok_fields ts _ rec hmc).1
          rw [buildMerged_id, henv tid mt hmeta] at h5
          exact (Option.some.inj h5).symm
        cases hg : sizeGuardMain rec with
        | tooLarge a b =>
          rw [processEntity_eq_tooLarge env ts st e tid mt rec a b hid h0 h1' hmeta hmc hg]
          exact ⟨hnd', l, hsub.trans (List.sublist_append_left _ _),
            by simp [pushItem, stepState, pushedTableIds_append, pushedTableIds, hmap]⟩
        | full fs =>
          have hlk : lookupField fs "tableId" = some (.str tid) := by
            rw [sizeGuardMain_lookup_tableId rec fs (Or.inl hg), hrid]
          rw [processEntity_eq_result env ts st e tid mt rec fs hid h0 h1' hmeta hmc (Or.inl hg)]
          refine ⟨hnd', l ++ [tid], hsub.append (List.Sublist.refl _), ?_⟩
          simp [pushItem, stepState, pushedTableIds_append, pushedTableIds, hmap, hlk]
        | degraded fs =>
          have hlk : lookupField fs "tableId" = some (.str tid) := by
            rw [sizeGuardMain_lookup_tableId rec fs (Or.inr hg), hrid]
          rw [processEntity_eq_result env ts st e tid mt rec fs hid h0 h1' hmeta hmc (Or.inr hg)]
          refine ⟨hnd', l ++ [tid], hsub.append (List.Sublist.refl _), ?_⟩
          simp [pushItem, stepState, pushedTableIds_append, pushedTableIds, hmap, hlk]

theorem runBatch_inv (P : RunState → Prop) (env : Env) (ts : String)
    (hstep : ∀ st e, P st → P (processEntity env ts st e)) :
    ∀ (b : List RawCensusEntity) (st : RunState), P st → P (runBatch env ts st b) := by
  intro b
  induction b with
  | nil => intro st h; simpa [runBatch] using h
  | cons e rest ih =>
    intro st h
    simp only [runBatch, List.foldl_cons]
    exact ih (processEntity env ts st e) (hstep st e h)

theorem runBatches_inv (P : RunState → Prop) (env : Env) (ts : String) (cap : Option Nat)
    (hstep : ∀ st e, P st → P (processEntity env ts st e)) :
    ∀ (fuel : Nat) (es : List RawCensusEntity) (st : RunState),
      P st → P (runBatches env ts cap fuel es st) := by
  intro fuel
  induction fuel with
  | zero => intro es st h; simpa [runBatches] using h
  | succ n ih =>
    intro es st h
    cases es with
    | nil => simpa [runBatches] using h
    | cons e rest =>
      simp only [runBatches]
      split_ifs with hc
      · exact h
      · exact ih _ _ (runBatch_inv P env ts hstep _ _ h)

theorem DedupInv_nodup (st : RunState) (h : DedupInv st) :
    (pushedTableIds st.pushed).Nodup := by
  obtain ⟨hnd, l, hsub, hmap⟩ := h
  rw [hmap]
  exact (hsub.nodup hnd).map (fun a b hab => by simpa using hab)

/-- C3 (corrected): when the metadata endpoint preserves the requested
identifier, no two pushed result records of a run share a tableId, and
an entity whose identifier is already in the seen set is skipped
silently (the run state is unchanged: nothing pushed, no error).  The
identifier-preservation hypothesis is needed: the emitted tableId comes
from the merged table, whose id the metadata response overwrites. -/
theorem C3_dedup (env : Env) (henv : IdPreserving env) (ts : String)
    (search : Nat → List RawCensusEntity) (cap : Option Nat) (fuel : Nat) :
    (pushedTableIds (runSearchCollection env ts search cap fuel).pushed).Nodup ∧
    ∀ (st : RunState) (e : RawCensusEntity) (tid : String),
      e.id = some tid → st.seen.contains tid = true → processEntity env ts st e = st := by
  constructor
  · apply DedupInv_nodup
    exact runBatches_inv DedupInv env ts cap
      (fun st e h => processEntity_dedup_inv env henv ts st e h)
      (fetchAllSearchResults search cap fuel).length
      (fetchAllSearchResults search cap fuel) initState
      ⟨by simp [initState], [], by simp, by simp [initState, pushedTableIds]⟩
  · intro st e tid hid hc
    exact processEntity_eq_skip_dup env ts st e tid hid hc

/-- C3 counterexample: against a metadata endpoint that reports actual
identifier C for every request (as fetchTableMetadata does when the
response body carries its own tableId), the run over the two distinct
search entities A and B pushes two result records both carrying
tableId C: the emitted identifiers are not duplicate-free. -/
theorem C3_counterexample :
    pushedTableIds (runSearchCollection envC "TS" searchAB none 3).pushed =
      [some (.str "C"), some (.str "C")] ∧
    ¬ (pushedTableIds (runSearchCollection envC "TS" searchAB none 3).pushed).Nodup := by
  constructor
  · rfl
  · intro hp
    rw [show pushedTableIds (runSearchCollection envC "TS" searchAB none 3).pushed =
      [some (.str "C"), some (.str "C")] from rfl] at hp
    exact (List.nodup_cons.mp hp).1 (List.mem_singleton.mpr rfl)

/-- Concrete instance of C3_dedup: the identifier-echoing run over
entities A and B emits duplicate-free identifiers, and processing any
already-seen entity leaves the state unchanged. -/
theorem C3_dedup_witness :
    (pushedTableIds (runSearchCollection envOK "TS" searchAB none 3).pushed).Nodup ∧
    ∀ (st : RunState) (e : RawCensusEntity) (tid : String),
      e.id = some tid → st.seen.contains tid = true → processEntity envOK "TS" st e = st :=
  C3_dedup envOK (fun tid mt h => by injection h with h; rw [← h]; rfl) "TS" searchAB none 3

theorem mapErrMessage_ne (me : MapErr) : mapErrMessage me ≠ "" := by
  cases me <;> decide

theorem mainTooLargeMsg_ne (a b : Nat) : mainTooLargeMsg a b ≠ "" := by
  intro h
  have hlen := congrArg String.length h
  rw [mainTooLargeMsg] at hlen
  simp only [String.length_append] at hlen
  rw [show ("Data item too large (original size: ").length = 36 from rfl,
    show ("").length = 0 from rfl] at hlen
  omega

theorem processEntity_errors_inv (env : Env) (ts : String)
    (hmsg : ∀ tid msg, env.meta tid = .error msg → msg ≠ "")
    (st : RunState) (e : RawCensusEntity)
    (hinv : ∀ er ∈ pushedErrors st.pushed, ErrOK ts er) :
    ∀ er ∈ pushedErrors (processEntity env ts st e).pushed, ErrOK ts er := by
  cases hid : e.id with
  | none => simp only [processEntity, hid]; exact hinv
  | some tid =>
    by_cases h0 : tid = ""
    · simp only [processEntity, hid, if_pos h0]; exact hinv
    by_cases h1 : st.seen.contains tid = true
    · rw [processEntity_eq_skip_dup env ts st e tid hid h1]; exact hinv
    have h1' : st.seen.contains tid = false := by simpa using h1
    cases hmeta : env.meta tid with
    | error msg =>
      rw [processEntity_eq_metaError env ts st e tid msg hid h0 h1' hmeta]
      intro er her
      simp only [pushItem, stepState, pushedErrors_append, pushedErrors] at her
      rw [List.mem_append] at her
      rcases her with her | her
      · exact hinv er her
      · rw [List.mem_singleton] at her
        subst her
        exact ⟨rfl, hmsg tid msg hmeta, tid, rfl, rfl⟩
    | ok mt =>
      cases hmc : mapCensusTable ts (buildMerged mt (env.dataData tid)) with
      | error me =>
        rw [processEntity_eq_mapError env ts st e tid mt me hid h0 h1' hmeta hmc]
        intro er her
        simp only [pushItem, stepState, pushedErrors_append, pushedErrors] at her
        rw [List.mem_append] at her
        rcases her with her | her
        · exact hinv er her
        · rw [List.mem_singleton] at her
          subst her
          exact ⟨rfl, mapErrMessage_ne me, tid, rfl, rfl⟩
      | ok rec =>
        cases hg : sizeGuardMain rec with
        | tooLarge a b =>
          rw [processEntity_eq_tooLarge env ts st e tid mt rec a b hid h0 h1' hmeta hmc hg]
          intro er her
          simp only [pushItem, stepState, pushedErrors_append, pushedErrors] at her
          rw [List.mem_append] at her
          rcases her with her | her
          · exact hinv er her
          · rw [List.mem_singleton] at her
            subst her
            exact ⟨rfl, mainTooLargeMsg_ne a b, tid, rfl, rfl⟩
        | full fs =>
          rw [processEntity_eq_result env ts st e tid mt rec fs hid h0 h1' hmeta hmc (Or.inl hg)]
          intro er her
          simp only [pushItem, stepState, pushedErrors_append, pushedErrors, List.append_nil] at her
          exact hinv er her
        | degraded fs =>
          rw [processEntity_eq_result env ts st e tid mt rec fs hid h0 h1' hmeta hmc (Or.inr hg)]
          intro er her
          simp only [pushItem, stepState, pushedErrors_append, pushedErrors, List.append_nil] at her
          exact hinv er her

/-- C4 (corrected): every error record of a run carries the run
timestamp and (when the failure messages of the environment are
non-empty) a non-empty errorMessage; but its tableId and entityId
slots are BOTH populated, with the same identifier, not exactly one of
them: processBatch writes tableId: entityTableId and entityId:
entity.id into the same record. -/
theorem C4_error_fields (env : Env) (ts : String)
    (hmsg : ∀ tid msg, env.meta tid = .error msg → msg ≠ "")
    (search : Nat → List RawCensusEntity) (cap : Option Nat) (fuel : Nat) :
    ∀ er ∈ pushedErrors (runSearchCollection env ts search cap fuel).pushed,
      er.scrapedTimestamp = ts ∧ er.errorMessage ≠ "" ∧
      ∃ t, er.tableId = some t ∧ er.entityId = some t := by
  intro er her
  refine runBatches_inv (fun st => ∀ x ∈ pushedErrors st.pushed, ErrOK ts x) env ts cap
    (fun st e h => processEntity_errors_inv env ts hmsg st e h)
    (fetchAllSearchResults search cap fuel).length
    (fetchAllSearchResults search cap fuel) initState
    (by simp [initState, pushedErrors]) er ?_
  exact her

/-- C4 counterexample: the concrete failing run pushes exactly one
error record, whose tableId and entityId are both populated (both are
the identifier A): no emitted error record has exactly one of the two
identifier slots populated. -/
theorem C4_counterexample :
    pushedErrors (runSearchCollection env400 "TS" searchOne none 3).pushed = [cexRunErr] ∧
    cexRunErr.tableId = some "A" ∧ cexRunErr.entityId = some "A" :=
  ⟨rfl, rfl, rfl⟩

/-- Concrete instance of C4_error_fields: the one error record pushed
by the all-failures run has the run timestamp, a non-empty message,
and both identifier slots populated with one identifier. -/
theorem C4_error_fields_witness :
    cexRunErr.scrapedTimestamp = "TS" ∧ cexRunErr.errorMessage ≠ "" ∧
    ∃ t, cexRunErr.tableId = some t ∧ cexRunErr.entityId = some t :=
  C4_error_fields env400 "TS"
    (fun tid msg h => by
      injection h with h
      intro he
      exact absurd (h.trans he) (by decide))
    searchOne none 3 cexRunErr
    (by
      rw [show pushedErrors (runSearchCollection env400 "TS" searchOne none 3).pushed
        = [cexRunErr] from rfl]
      exact List.mem_singleton.mpr rfl)

/-- C9 (confirmed): a failure while processing one fresh identifier is
converted at that identifier's boundary into exactly one pushed error
record (the rest of the state change is the ordinary bookkeeping);
processing a batch decomposes entity by entity, so the failure
interrupts neither the siblings after it nor later batches; concretely,
the run over entities A and B in which the metadata fetch of A fails
completes with one error record for A and one success record for B. -/
theorem C9_failure_containment :
    (∀ (env : Env) (ts : String) (st : RunState) (e : RawCensusEntity) (tid msg : String),
      e.id = some tid → tid ≠ "" → st.seen.contains tid = false →
      env.meta tid = .error msg →
      (processEntity env ts st e).pushed = st.pushed ++
        [.errorRec { error := "Failed to process table", tableId := some tid,
                     entityId := some tid, errorMessage := msg, scrapedTimestamp := ts }] ∧
      (processEntity env ts st e).totalPushed = st.totalPushed + 1) ∧
    (∀ (env : Env) (ts : String) (st : RunState) (b1 b2 : List RawCensusEntity)
        (e : RawCensusEntity),
      runBatch env ts st (b1 ++ e :: b2) =
        runBatch env ts (processEntity env ts (runBatch env ts st b1) e) b2) ∧
    (pushedErrors (runSearchCollection envAfail "TS" searchAB none 3).pushed = [cexRunErr] ∧
     pushedTableIds (runSearchCollection envAfail "TS" searchAB none 3).pushed =
       [some (.str "B")]) := by
  refine ⟨?_, ?_, rfl, rfl⟩
  · intro env ts st e tid msg hid h0 hc hmeta
    rw [processEntity_eq_metaError env ts st e tid msg hid h0 hc hmeta]
    exact ⟨rfl, rfl⟩
  · intro env ts st b1 b2 e
    simp [runBatch, List.foldl_append]

/-- Concrete instance of C9_failure_containment: the failing fetch of
entity A from the initial state appends exactly one error record and
counts exactly one push. -/
theorem C9_failure_containment_witness :
    (processEntity env400 "TS" initState entityA).pushed = initState.pushed ++
      [.errorRec { error := "Failed to process table", tableId := some "A",
                   entityId := some "A",
                   errorMessage := "Metadata request failed with status 400: Bad Request",
                   scrapedTimestamp := "TS" }] ∧
    (processEntity env400 "TS" initState entityA).totalPushed = initState.totalPushed + 1 :=
  C9_failure_containment.1 env400 "TS" initState entityA "A"
    "Metadata request failed with status 400: Bad Request" rfl (by decide) rfl rfl
